import Mathlib

/-!
Verification development for the system68k MC68000 emulator core.

The definitions below are a shallow embedding of the Rust sources:
`src/cpu/decoder.rs` (instruction decoder), `src/cpu/mod.rs` (CPU state and
execution engine), `src/bus/mod.rs` and `src/sys/mod.rs` (memory bus), and
`src/bin/sys68k/gdb/mod.rs` (debug attachment).  Machine integers are
modelled as `Nat` with explicit wrapping (`% 2^32`) where the source wraps;
Rust `Result` values become `Except`; a Rust panic (array index out of
bounds, `todo!`, `unreachable!`) is modelled by the dedicated error value
`Err.crash`.
-/

namespace System68k

/-- CPU version, from `decoder.rs` (`super::Version`). -/
inductive Version
  | MC68000
  | MC68010
deriving DecidableEq

/-- Operand size, from `decoder.rs` `enum Size`. -/
inductive Size
  | Byte
  | Word
  | Long
deriving DecidableEq

/-- Transfer direction, from `decoder.rs` `enum Target`. -/
inductive Target
  | FromRegister
  | ToRegister
deriving DecidableEq

/-- Condition codes, from `decoder.rs` `enum Condition` (the `CarrtSet`
spelling is the source's). -/
inductive Condition
  | True
  | False
  | Higher
  | LowerOrSame
  | CarryClear
  | CarrtSet
  | NotEqual
  | Equal
  | OverflowClear
  | OverflowSet
  | Plus
  | Minus
  | GreaterOrEqual
  | LessThan
  | GreaterThan
  | LessOrEqual
deriving DecidableEq

/-- Addressing-mode descriptor, from `decoder.rs` `enum EffectiveAddress`. -/
inductive EffectiveAddress
  | DataRegister (register : Nat)
  | AddressRegister (register : Nat)
  | Address (register : Nat)
  | AddressWithPostIncrement (register : Nat)
  | AddressWithPreDecrement (register : Nat)
  | AddressWithDisplacement (register : Nat)
  | AddressWithIndex (register : Nat)
  | PcWithDisplacement
  | PcWithIndex
  | AbsoluteShort
  | AbsoluteLong
  | Immediate
deriving DecidableEq

/-- Decoded instruction record, from `decoder.rs` `enum Instruction`. -/
inductive Instruction
  | OriToCcr
  | OriToSr
  | Ori (size : Size) (ea : EffectiveAddress)
  | AndiToCcr
  | AndiToSr
  | Andi (size : Size) (ea : EffectiveAddress)
  | Subi (size : Size) (ea : EffectiveAddress)
  | Addi (size : Size) (ea : EffectiveAddress)
  | EoriToCcr
  | EoriToSr
  | Eori (size : Size) (ea : EffectiveAddress)
  | Cmpi (size : Size) (ea : EffectiveAddress)
  | Btst (register : Option Nat) (ea : EffectiveAddress)
  | Bchg (register : Option Nat) (ea : EffectiveAddress)
  | Bclr (register : Option Nat) (ea : EffectiveAddress)
  | Bset (register : Option Nat) (ea : EffectiveAddress)
  | Movep (size : Size) (target : Target) (dreg areg : Nat)
  | Movea (size : Size) (ea : EffectiveAddress) (register : Nat)
  | Move (size : Size) (src dst : EffectiveAddress)
  | MoveFromSr (ea : EffectiveAddress)
  | MoveToCcr (ea : EffectiveAddress)
  | MoveToSr (ea : EffectiveAddress)
  | Negx (size : Size) (ea : EffectiveAddress)
  | Clr (size : Size) (ea : EffectiveAddress)
  | Neg (size : Size) (ea : EffectiveAddress)
  | Not (size : Size) (ea : EffectiveAddress)
  | Ext (size : Size) (register : Nat)
  | Nbcd (ea : EffectiveAddress)
  | Swap (register : Nat)
  | Pea (ea : EffectiveAddress)
  | Illegal
  | Tas (ea : EffectiveAddress)
  | Tst (size : Size) (ea : EffectiveAddress)
  | Trap (vector : Nat)
  | Link (register : Nat)
  | Unlk (register : Nat)
  | MoveUsp (target : Target) (register : Nat)
  | Reset
  | Nop
  | Stop
  | Rte
  | Rts
  | Trapv
  | Rtr
  | Jsr (ea : EffectiveAddress)
  | Jmp (ea : EffectiveAddress)
  | Movem (size : Size) (target : Target) (ea : EffectiveAddress)
  | Lea (ea : EffectiveAddress) (register : Nat)
  | Chk (ea : EffectiveAddress) (register : Nat)
  | Addq (size : Size) (data : Nat) (ea : EffectiveAddress)
  | Subq (size : Size) (data : Nat) (ea : EffectiveAddress)
  | Scc (condition : Condition) (ea : EffectiveAddress)
  | Dbcc (condition : Condition) (register : Nat)
  | Bra (displacement : Nat)
  | Bsr (displacement : Nat)
  | Bcc (condition : Condition) (displacement : Nat)
  | Moveq (data : Nat) (register : Nat)
  | Divu (ea : EffectiveAddress) (register : Nat)
  | Divs (ea : EffectiveAddress) (register : Nat)


/-- Legal-mode table for data-alterable addressing modes (`ea_type0`). -/
def ea_type0 (_version : Version) (mode register : Nat) : Option EffectiveAddress :=
  match mode with
  | 0b000 => some (.DataRegister register)
  | 0b001 => none
  | 0b010 => some (.Address register)
  | 0b011 => some (.AddressWithPostIncrement register)
  | 0b100 => some (.AddressWithPreDecrement register)
  | 0b101 => some (.AddressWithDisplacement register)
  | 0b110 => some (.AddressWithIndex register)
  | 0b111 =>
    match register with
    | 0b000 => some .AbsoluteShort
    | 0b001 => some .AbsoluteLong
    | _ => none
  | _ => none

/-- Legal-mode table permitting every mode except `An` (`ea_type1`). -/
def ea_type1 (_version : Version) (mode register : Nat) : Option EffectiveAddress :=
  match mode with
  | 0b000 => some (.DataRegister register)
  | 0b001 => none
  | 0b010 => some (.Address register)
  | 0b011 => some (.AddressWithPostIncrement register)
  | 0b100 => some (.AddressWithPreDecrement register)
  | 0b101 => some (.AddressWithDisplacement register)
  | 0b110 => some (.AddressWithIndex register)
  | 0b111 =>
    match register with
    | 0b000 => some .AbsoluteShort
    | 0b001 => some .AbsoluteLong
    | 0b010 => some .PcWithDisplacement
    | 0b011 => some .PcWithIndex
    | 0b100 => some .Immediate
    | _ => none
  | _ => none

/-- Legal-mode table for data addressing modes (`ea_type2`). -/
def ea_type2 (_version : Version) (mode register : Nat) : Option EffectiveAddress :=
  match mode with
  | 0b000 => some (.DataRegister register)
  | 0b001 => none
  | 0b010 => some (.Address register)
  | 0b011 => some (.AddressWithPostIncrement register)
  | 0b100 => some (.AddressWithPreDecrement register)
  | 0b101 => some (.AddressWithDisplacement register)
  | 0b110 => some (.AddressWithIndex register)
  | 0b111 =>
    match register with
    | 0b000 => some .AbsoluteShort
    | 0b001 => some .AbsoluteLong
    | 0b010 => some .PcWithDisplacement
    | 0b011 => some .PcWithIndex
    | _ => none
  | _ => none

/-- Legal-mode table also permitting `An` (`ea_type3`). -/
def ea_type3 (_version : Version) (mode register : Nat) : Option EffectiveAddress :=
  match mode with
  | 0b000 => some (.DataRegister register)
  | 0b001 => some (.AddressRegister register)
  | 0b010 => some (.Address register)
  | 0b011 => some (.AddressWithPostIncrement register)
  | 0b100 => some (.AddressWithPreDecrement register)
  | 0b101 => some (.AddressWithDisplacement register)
  | 0b110 => some (.AddressWithIndex register)
  | 0b111 =>
    match register with
    | 0b000 => some .AbsoluteShort
    | 0b001 => some .AbsoluteLong
    | 0b010 => some .PcWithDisplacement
    | 0b011 => some .PcWithIndex
    | 0b100 => some .Immediate
    | _ => none
  | _ => none

/-- Legal-mode table for control addressing modes (`ea_type4`). -/
def ea_type4 (_version : Version) (mode register : Nat) : Option EffectiveAddress :=
  match mode with
  | 0b010 => some (.Address register)
  | 0b101 => some (.AddressWithDisplacement register)
  | 0b110 => some (.AddressWithIndex register)
  | 0b111 =>
    match register with
    | 0b000 => some .AbsoluteShort
    | 0b001 => some .AbsoluteLong
    | 0b010 => some .PcWithDisplacement
    | 0b011 => some .PcWithIndex
    | _ => none
  | _ => none

/-- Classifier for opcode group 0 (`decode_0`).  The Rust function uses early
returns; paths of the leading `bits8 = 0` block that fall through continue
with the bit-manipulation / MOVEP tail, which is bound here as `after`. -/
def decode_0 (version : Version) (opcode : Nat) : Instruction :=
  let bits0_2 := opcode &&& 0x0007
  let bits3_5 := (opcode &&& 0x0038) >>> 3
  let bits6_7 := (opcode &&& 0x00C0) >>> 6
  let bits8 := (opcode &&& 0x0100) >>> 8
  let bits9_11 := (opcode &&& 0x0E00) >>> 9
  let after :=
    if bits3_5 ≠ 1 then
      let register := some bits9_11
      match bits6_7 with
      | 0 =>
        match ea_type1 version bits3_5 bits0_2 with
        | some ea => Instruction.Btst register ea
        | none => Instruction.Illegal
      | 1 =>
        match ea_type2 version bits3_5 bits0_2 with
        | some ea => Instruction.Bchg register ea
        | none => Instruction.Illegal
      | 2 =>
        match ea_type2 version bits3_5 bits0_2 with
        | some ea => Instruction.Bclr register ea
        | none => Instruction.Illegal
      | 3 =>
        match ea_type2 version bits3_5 bits0_2 with
        | some ea => Instruction.Bset register ea
        | none => Instruction.Illegal
      | _ => Instruction.Illegal
    else
      let target := if bits6_7 >>> 1 = 0 then Target.FromRegister else Target.ToRegister
      let size := if bits6_7 &&& 1 = 0 then Size.Word else Size.Long
      Instruction.Movep size target bits9_11 bits0_2
  if bits8 = 0 then
    match bits9_11 with
    | 0b000 =>
      if bits0_2 = 4 ∧ bits3_5 = 7 then
        match bits6_7 with
        | 0 => .OriToCcr
        | 1 => .OriToSr
        | _ => .Illegal
      else
        match ea_type0 version bits3_5 bits0_2 with
        | some ea =>
          match bits6_7 with
          | 0 => .Ori .Byte ea
          | 1 => .Ori .Word ea
          | 2 => .Ori .Long ea
          | _ => .Illegal
        | none => after
    | 0b001 =>
      if bits0_2 = 4 ∧ bits3_5 = 7 then
        match bits6_7 with
        | 0 => .AndiToCcr
        | 1 => .AndiToSr
        | _ => .Illegal
      else
        match ea_type0 version bits3_5 bits0_2 with
        | some ea =>
          match bits6_7 with
          | 0 => .Andi .Byte ea
          | 1 => .Andi .Word ea
          | 2 => .Andi .Long ea
          | _ => .Illegal
        | none => after
    | 0b010 =>
      match ea_type0 version bits3_5 bits0_2 with
      | some ea =>
        match bits6_7 with
        | 0 => .Subi .Byte ea
        | 1 => .Subi .Word ea
        | 2 => .Subi .Long ea
        | _ => .Illegal
      | none => after
    | 0b011 =>
      match ea_type0 version bits3_5 bits0_2 with
      | some ea =>
        match bits6_7 with
        | 0 => .Addi .Byte ea
        | 1 => .Addi .Word ea
        | 2 => .Addi .Long ea
        | _ => .Illegal
      | none => after
    | 0b101 =>
      if bits0_2 = 4 ∧ bits3_5 = 7 then
        match bits6_7 with
        | 0 => .EoriToCcr
        | 1 => .EoriToSr
        | _ => .Illegal
      else
        match ea_type0 version bits3_5 bits0_2 with
        | some ea =>
          match bits6_7 with
          | 0 => .Eori .Byte ea
          | 1 => .Eori .Word ea
          | 2 => .Eori .Long ea
          | _ => .Illegal
        | none => after
    | 0b110 =>
      match ea_type0 version bits3_5 bits0_2 with
      | some ea =>
        match bits6_7 with
        | 0 => .Cmpi .Byte ea
        | 1 => .Cmpi .Word ea
        | 2 => .Cmpi .Long ea
        | _ => .Illegal
      | none => after
    | 0b100 =>
      match ea_type2 version bits3_5 bits0_2 with
      | some ea =>
        match bits6_7 with
        | 0 => .Btst none ea
        | 1 => .Bchg none ea
        | 2 => .Bclr none ea
        | _ => .Bset none ea
      | none => after
    | _ => Instruction.Illegal
  else
    after

/-- Classifier for opcode group 1: MOVE.B (`decode_1`). -/
def decode_1 (version : Version) (opcode : Nat) : Instruction :=
  let bits0_2 := opcode &&& 0x0007
  let bits3_5 := (opcode &&& 0x0038) >>> 3
  let bits6_8 := (opcode &&& 0x01C0) >>> 6
  let bits9_11 := (opcode &&& 0x0E00) >>> 9
  if bits6_8 = 1 then
    Instruction.Illegal
  else
    match ea_type0 version bits3_5 bits0_2, ea_type1 version bits6_8 bits9_11 with
    | some src, some dst => Instruction.Move .Byte src dst
    | _, _ => Instruction.Illegal

/-- Classifier for opcode group 2: MOVE.L / MOVEA.L (`decode_2`). -/
def decode_2 (version : Version) (opcode : Nat) : Instruction :=
  let bits0_2 := opcode &&& 0x0007
  let bits3_5 := (opcode &&& 0x0038) >>> 3
  let bits6_8 := (opcode &&& 0x01C0) >>> 6
  let bits9_11 := (opcode &&& 0x0E00) >>> 9
  if bits6_8 = 1 then
    match ea_type3 version bits3_5 bits0_2 with
    | some ea => Instruction.Movea .Long ea bits9_11
    | none => Instruction.Illegal
  else
    match ea_type0 version bits3_5 bits0_2, ea_type1 version bits6_8 bits9_11 with
    | some src, some dst => Instruction.Move .Long src dst
    | _, _ => Instruction.Illegal

/-- Classifier for opcode group 3: MOVE.W / MOVEA.W (`decode_3`). -/
def decode_3 (version : Version) (opcode : Nat) : Instruction :=
  let bits0_2 := opcode &&& 0x0007
  let bits3_5 := (opcode &&& 0x0038) >>> 3
  let bits6_8 := (opcode &&& 0x01C0) >>> 6
  let bits9_11 := (opcode &&& 0x0E00) >>> 9
  if bits6_8 = 1 then
    match ea_type3 version bits3_5 bits0_2 with
    | some ea => Instruction.Movea .Word ea bits9_11
    | none => Instruction.Illegal
  else
    match ea_type0 version bits3_5 bits0_2, ea_type1 version bits6_8 bits9_11 with
    | some src, some dst => Instruction.Move .Word src dst
    | _, _ => Instruction.Illegal

/-- Classifier for opcode group 4 (`decode_4`), translated early return by
early return: each `return` of the Rust source becomes the `then` branch of
a conditional whose `else` is the rest of the function. -/
def decode_4 (version : Version) (opcode : Nat) : Instruction :=
  let bits0_2 := opcode &&& 0x0007
  let bits0_3 := opcode &&& 0x000F
  let bits3_5 := (opcode &&& 0x0038) >>> 3
  let bits3_11 := (opcode &&& 0x0FF8) >>> 3
  let bits4_11 := (opcode &&& 0x0FF0) >>> 4
  let bit6 := (opcode &&& 0x0040) >>> 6
  let bit7 := (opcode &&& 0x0080) >>> 7
  let bits6_7 := (opcode &&& 0x00C0) >>> 6
  let bits6_8 := (opcode &&& 0x01C0) >>> 6
  let bits6_11 := (opcode &&& 0x0FC0) >>> 6
  let bits8_11 := (opcode &&& 0x0F00) >>> 8
  let bit11 := (opcode &&& 0x0800) >>> 11
  -- tail of the function shared by all fall-through paths
  let rest5 :=
    if bits3_11 = 0b111001010 then Instruction.Link bits0_2
    else if bits3_11 = 0b111001011 then Instruction.Unlk bits0_2
    else Instruction.Illegal
  let rest4 :=
    if bits4_11 = 0b11100100 then Instruction.Trap bits0_3 else rest5
  let rest3 :=
    if bits8_11 = 0b1010 then
      -- the source maps every valid size field of TST to Size::Byte
      let size :=
        match bits6_7 with
        | 0b00 => some Size.Byte
        | 0b01 => some Size.Byte
        | 0b10 => some Size.Byte
        | _ => none
      match ea_type0 version bits3_5 bits0_2, size with
      | some ea, some size => Instruction.Tst size ea
      | _, _ => rest4
    else rest4
  let rest2 :=
    if bits6_11 = 0b101011 then
      match ea_type0 version bits3_5 bits0_2 with
      | some ea => Instruction.Tas ea
      | none => rest3
    else rest3
  let rest1 :=
    if opcode = 0b0100101011111100 then Instruction.Illegal else rest2
  let rest0 :=
    if bits8_11 = 0b1000 then
      if bit7 = 1 ∧ bits3_5 = 0 then
        Instruction.Ext (if bit6 = 0 then Size.Word else Size.Long) bits0_2
      else if bits6_7 = 0 then
        match ea_type0 version bits3_5 bits0_2 with
        | some ea => Instruction.Nbcd ea
        | none => rest1
      else if bits6_8 = 0b001 then
        if bits3_5 = 0 then Instruction.Swap bits0_2
        else
          match ea_type4 version bits3_5 bits0_2 with
          | some ea => Instruction.Pea ea
          | none => rest1
      else rest1
    else rest1
  if bit11 = 0 then
    let moveSr :=
      if bits6_7 = 0b11 then
        match bits8_11 with
        | 0b0000 =>
          match ea_type0 version bits3_5 bits0_2 with
          | some ea => some (Instruction.MoveFromSr ea)
          | none => none
        | 0b0100 =>
          match ea_type1 version bits3_5 bits0_2 with
          | some ea => some (Instruction.MoveToCcr ea)
          | none => none
        | 0b0110 =>
          match ea_type1 version bits3_5 bits0_2 with
          | some ea => some (Instruction.MoveToSr ea)
          | none => none
        | _ => none
      else none
    match moveSr with
    | some instruction => instruction
    | none =>
      let size :=
        match bits6_7 with
        | 0b00 => some Size.Byte
        | 0b01 => some Size.Word
        | 0b10 => some Size.Long
        | _ => none
      match ea_type0 version bits3_5 bits0_2, size with
      | some ea, some size =>
        match bits8_11 with
        | 0b0000 => Instruction.Negx size ea
        | 0b0010 => Instruction.Clr size ea
        | 0b0100 => Instruction.Neg size ea
        | 0b0110 => Instruction.Not size ea
        | _ => rest0
      | _, _ => rest0
  else
    rest0

/-- Classifier for opcode group 5 (`decode_5`): not implemented, everything
is `Illegal`. -/
def decode_5 (_version : Version) (_opcode : Nat) : Instruction :=
  Instruction.Illegal

/-- Classifier for opcode group 6 (`decode_6`). -/
def decode_6 (_version : Version) (_opcode : Nat) : Instruction :=
  Instruction.Illegal

/-- Classifier for opcode group 7: MOVEQ (`decode_7`). -/
def decode_7 (_version : Version) (opcode : Nat) : Instruction :=
  let bit8 := (opcode &&& 0x0100) >>> 8
  let bits9_11 := (opcode &&& 0x0E00) >>> 9
  if bit8 = 1 then
    Instruction.Illegal
  else
    Instruction.Moveq (opcode &&& 0xFF) bits9_11

/-- Classifier for opcode group 8 (`decode_8`). -/
def decode_8 (_version : Version) (_opcode : Nat) : Instruction :=
  Instruction.Illegal

/-- Classifier for opcode group 9 (`decode_9`). -/
def decode_9 (_version : Version) (_opcode : Nat) : Instruction :=
  Instruction.Illegal

/-- Classifier for opcode group A (`decode_a`). -/
def decode_a (_version : Version) (_opcode : Nat) : Instruction :=
  Instruction.Illegal

/-- Classifier for opcode group B (`decode_b`). -/
def decode_b (_version : Version) (_opcode : Nat) : Instruction :=
  Instruction.Illegal

/-- Classifier for opcode group C (`decode_c`). -/
def decode_c (_version : Version) (_opcode : Nat) : Instruction :=
  Instruction.Illegal

/-- Classifier for opcode group D (`decode_d`). -/
def decode_d (_version : Version) (_opcode : Nat) : Instruction :=
  Instruction.Illegal

/-- Classifier for opcode group E (`decode_e`). -/
def decode_e (_version : Version) (_opcode : Nat) : Instruction :=
  Instruction.Illegal

/-- Classifier for opcode group F (`decode_f`). -/
def decode_f (_version : Version) (_opcode : Nat) : Instruction :=
  Instruction.Illegal

/-- Per-opcode entry construction: the body of the loop in `init_table`,
dispatching on the top nibble. -/
def decode_entry (version : Version) (opcode : Nat) : Instruction :=
  match (opcode &&& 0xF000) >>> 12 with
  | 0x0 => decode_0 version opcode
  | 0x1 => decode_1 version opcode
  | 0x2 => decode_2 version opcode
  | 0x3 => decode_3 version opcode
  | 0x4 => decode_4 version opcode
  | 0x5 => decode_5 version opcode
  | 0x6 => decode_6 version opcode
  | 0x7 => decode_7 version opcode
  | 0x8 => decode_8 version opcode
  | 0x9 => decode_9 version opcode
  | 0xA => decode_a version opcode
  | 0xB => decode_b version opcode
  | 0xC => decode_c version opcode
  | 0xD => decode_d version opcode
  | 0xE => decode_e version opcode
  | _ => decode_f version opcode

/-- The 65536-entry decoder table (`init_table`): entry `opcode` holds
`decode_entry version opcode`. -/
def init_table (version : Version) : List Instruction :=
  (List.range 65536).map (decode_entry version)

/-- Table lookup (`Decoder::decode`). -/
def decode (version : Version) (opcode : Nat) : Instruction :=
  ((init_table version)[opcode]?).getD Instruction.Illegal

/-! CPU state and execution engine, from `src/cpu/mod.rs`.  Unsigned 32-bit
arithmetic is `Nat` arithmetic with explicit `% 4294967296`; the casts
`as u8` / `as u16` of the source become `% 256` / `% 65536`. -/

/-- Internal exception type (`enum Exception` in `cpu/mod.rs`). -/
inductive Exception
  | AddressError
  | BusError
  | IllegalInstruction (opcode : Nat)
  | IntegerDivideByZero
  | PrivilegeViolation
deriving DecidableEq

/-- Failure of a CPU operation: either a Rust `Err` carrying an `Exception`,
or a Rust panic (`todo!`, `unreachable!`, array index out of bounds),
modelled by `crash`. -/
inductive Err
  | crash
  | exc (e : Exception)
deriving DecidableEq

/-- Result type of the fallible CPU operations. -/
abbrev Res (α : Type) : Type := Except Err α

/-- Status-register flag bits (`enum StatusFlag`). -/
inductive StatusFlag
  | Carry
  | Overflow
  | Zero
  | Negative
  | Extend
  | InterruptMask
  | Interrupt
  | Supervisor
  | Tracing
deriving DecidableEq

/-- Numeric value of each status flag (`StatusFlag` discriminants). -/
def StatusFlag.mask : StatusFlag → Nat
  | .Carry => 0x0001
  | .Overflow => 0x0002
  | .Zero => 0x0004
  | .Negative => 0x0008
  | .Extend => 0x0010
  | .InterruptMask => 0x0700
  | .Interrupt => 0x1000
  | .Supervisor => 0x2000
  | .Tracing => 0x8000

/-- Resolved effective address (`enum ComputedEffectiveAddress`). -/
inductive ComputedEffectiveAddress
  | DataRegister (register : Nat)
  | AddressRegister (register : Nat)
  | Address (addr : Nat)
  | Immediate
deriving DecidableEq

/-- The memory bus, modelled as a total byte map (`TestBus` over its `mem`
vector; the `System`/`CpuView` bus of `sys/mod.rs` behaves identically on
the in-range addresses the verified scenarios touch). -/
abbrev Bus : Type := Nat → Nat

/-- Bus byte read (`read8`). -/
def Bus.read8 (bus : Bus) (addr : Nat) : Nat :=
  bus addr % 256

/-- Bus big-endian word read (`read16`). -/
def Bus.read16 (bus : Bus) (addr : Nat) : Nat :=
  bus.read8 addr * 256 + bus.read8 (addr + 1)

/-- Bus big-endian long read (`read32`). -/
def Bus.read32 (bus : Bus) (addr : Nat) : Nat :=
  bus.read8 addr * 16777216 + bus.read8 (addr + 1) * 65536 +
    bus.read8 (addr + 2) * 256 + bus.read8 (addr + 3)

/-- Bus byte write (`write8`). -/
def Bus.write8 (bus : Bus) (addr value : Nat) : Bus :=
  fun a => if a = addr then value % 256 else bus a

/-- Bus big-endian word write (`write16`). -/
def Bus.write16 (bus : Bus) (addr value : Nat) : Bus :=
  (bus.write8 addr ((value >>> 8) &&& 0xFF)).write8 (addr + 1) (value &&& 0xFF)

/-- Bus big-endian long write (`write32`). -/
def Bus.write32 (bus : Bus) (addr value : Nat) : Bus :=
  ((((bus.write8 addr ((value >>> 24) &&& 0xFF)).write8
    (addr + 1) ((value >>> 16) &&& 0xFF)).write8
    (addr + 2) ((value >>> 8) &&& 0xFF)).write8
    (addr + 3) (value &&& 0xFF))

/-- Wrapping 32-bit addition (`u32::wrapping_add`). -/
def wrap_add32 (a b : Nat) : Nat :=
  (a + b) % 4294967296

/-- Wrapping 32-bit subtraction (`u32::wrapping_sub`). -/
def wrap_sub32 (a b : Nat) : Nat :=
  (a + 4294967296 - b % 4294967296) % 4294967296

/-- Sign extension of a 16-bit value to 32 bits
(`((x as i16) as i32) as u32`). -/
def sign_extend_16_32 (w : Nat) : Nat :=
  if w &&& 0x8000 ≠ 0 then w ||| 0xFFFF0000 else w

/-- Sign extension of an 8-bit value to 32 bits
(`((x as i8) as i32) as u32`). -/
def sign_extend_8_32 (b : Nat) : Nat :=
  if b &&& 0x80 ≠ 0 then b ||| 0xFFFFFF00 else b

/-- Sign extension of an 8-bit value to 16 bits
(`((x as i8) as i16) as u16`). -/
def sign_extend_8_16 (b : Nat) : Nat :=
  if b &&& 0x80 ≠ 0 then b ||| 0xFF00 else b

/-- `u8::borrowing_sub`: wrapped difference and borrow-out. -/
def borrowing_sub8 (lhs rhs : Nat) (borrow : Bool) : Nat × Bool :=
  let b := if borrow then 1 else 0
  ((lhs + 512 - (rhs + b)) % 256, decide (lhs < rhs + b))

/-- `u16::borrowing_sub`. -/
def borrowing_sub16 (lhs rhs : Nat) (borrow : Bool) : Nat × Bool :=
  let b := if borrow then 1 else 0
  ((lhs + 131072 - (rhs + b)) % 65536, decide (lhs < rhs + b))

/-- `u32::borrowing_sub`. -/
def borrowing_sub32 (lhs rhs : Nat) (borrow : Bool) : Nat × Bool :=
  let b := if borrow then 1 else 0
  ((lhs + 8589934592 - (rhs + b)) % 4294967296, decide (lhs < rhs + b))

/-- `u8::carrying_add`. -/
def carrying_add8 (lhs rhs : Nat) (carry : Bool) : Nat × Bool :=
  let b := if carry then 1 else 0
  ((lhs + rhs + b) % 256, decide (256 ≤ lhs + rhs + b))

/-- `u16::carrying_add`. -/
def carrying_add16 (lhs rhs : Nat) (carry : Bool) : Nat × Bool :=
  let b := if carry then 1 else 0
  ((lhs + rhs + b) % 65536, decide (65536 ≤ lhs + rhs + b))

/-- `u32::carrying_add`. -/
def carrying_add32 (lhs rhs : Nat) (carry : Bool) : Nat × Bool :=
  let b := if carry then 1 else 0
  ((lhs + rhs + b) % 4294967296, decide (4294967296 ≤ lhs + rhs + b))

/-- CPU state (`struct Cpu`); the shared decoder table is a pure function
here and needs no field. -/
structure Cpu where
  data : List Nat
  addr : List Nat
  pc : Nat
  usp : Nat
  ssp : Nat
  sr : Nat
  is_stopped : Bool
deriving DecidableEq

/-- `Cpu::new`. -/
def Cpu.new : Cpu :=
  { data := List.replicate 8 0
    addr := List.replicate 7 0
    pc := 0
    usp := 0
    ssp := 0
    sr := 0
    is_stopped := false }

/-- `Cpu::reset`: SR := 0x2700, SSP := longword at 0, PC := longword at 4.
The source does not touch `is_stopped`. -/
def Cpu.reset (c : Cpu) (bus : Bus) : Cpu :=
  { c with sr := 0x2700, ssp := bus.read32 0, pc := bus.read32 4 }

/-- `Cpu::set_sr`: the stored SR is the written value masked with 0xF71F. -/
def Cpu.set_sr (c : Cpu) (value : Nat) : Cpu :=
  { c with sr := value &&& 0xF71F }

/-- `Cpu::flag`. -/
def Cpu.flag (c : Cpu) (f : StatusFlag) : Bool :=
  (c.sr &&& f.mask) != 0

/-- `Cpu::set_flag`; `!(flag as u16)` is the 16-bit complement. -/
def Cpu.set_flag (c : Cpu) (f : StatusFlag) (value : Bool) : Cpu :=
  if value then c.set_sr (c.sr ||| f.mask)
  else c.set_sr (c.sr &&& (0xFFFF ^^^ f.mask))

/-- `Cpu::addr` public accessor: A7 routes to the active stack pointer. -/
def Cpu.addr_accessor (c : Cpu) (register : Nat) : Res Nat :=
  if register = 7 then
    .ok (if c.flag .Supervisor then c.ssp else c.usp)
  else
    match c.addr[register]? with
    | some a => .ok a
    | none => .error .crash

/-- `Cpu::assert_supervisor`. -/
def Cpu.assert_supervisor (c : Cpu) : Res Unit :=
  if !(c.flag .Supervisor) then .error (.exc .PrivilegeViolation) else .ok ()

/-- `Cpu::is_stopped` accessor. -/
def Cpu.is_stopped_accessor (c : Cpu) : Bool :=
  c.is_stopped

/-- `Cpu::fetch_word`: read a word at PC and advance PC by 2. -/
def Cpu.fetch_word (c : Cpu) (bus : Bus) : Res (Nat × Cpu) :=
  .ok (bus.read16 c.pc, { c with pc := (c.pc + 2) % 4294967296 })

/-- `Cpu::fetch_long`: read a long at PC and advance PC by 4. -/
def Cpu.fetch_long (c : Cpu) (bus : Bus) : Res (Nat × Cpu) :=
  .ok (bus.read32 c.pc, { c with pc := (c.pc + 4) % 4294967296 })

/-- `Cpu::compute_ea`.  Note that the `AddressWithDisplacement` arm indexes
`self.addr[register]` directly (no A7 routing); with `register = 7` this is
out of bounds of the 7-element array, which is a panic (`Err.crash`).  The
`AddressWithIndex` and `PcWithIndex` arms are `todo!()`. -/
def Cpu.compute_ea (c : Cpu) (ea : EffectiveAddress) (increment : Nat) (bus : Bus) :
    Res (ComputedEffectiveAddress × Cpu) :=
  match ea with
  | .DataRegister register => .ok (.DataRegister register, c)
  | .AddressRegister register => .ok (.AddressRegister register, c)
  | .Address register =>
    if register = 7 then
      .ok (.Address (if c.flag .Supervisor then c.ssp else c.usp), c)
    else
      match c.addr[register]? with
      | some a => .ok (.Address a, c)
      | none => .error .crash
  | .AddressWithPostIncrement register =>
    if register = 7 then
      if c.flag .Supervisor then
        .ok (.Address c.ssp,
          { c with ssp := wrap_add32 c.ssp (if increment = 1 then 2 else increment) })
      else
        .ok (.Address c.usp,
          { c with usp := wrap_add32 c.usp (if increment = 1 then 2 else increment) })
    else
      match c.addr[register]? with
      | some a =>
        .ok (.Address a, { c with addr := c.addr.set register (wrap_add32 a increment) })
      | none => .error .crash
  | .AddressWithPreDecrement register =>
    if register = 7 then
      if c.flag .Supervisor then
        let ssp := wrap_sub32 c.ssp (if increment = 1 then 2 else increment)
        .ok (.Address ssp, { c with ssp := ssp })
      else
        let usp := wrap_sub32 c.usp (if increment = 1 then 2 else increment)
        .ok (.Address usp, { c with usp := usp })
    else
      match c.addr[register]? with
      | some a =>
        let a := wrap_sub32 a increment
        .ok (.Address a, { c with addr := c.addr.set register a })
      | none => .error .crash
  | .AddressWithDisplacement register =>
    match c.fetch_word bus with
    | .error e => .error e
    | .ok (w, c) =>
      let displacement := sign_extend_16_32 w
      match c.addr[register]? with
      | some a => .ok (.Address (wrap_add32 a displacement), c)
      | none => .error .crash
  | .AddressWithIndex _ => .error .crash
  | .PcWithDisplacement =>
    let pc := c.pc
    match c.fetch_word bus with
    | .error e => .error e
    | .ok (w, c) => .ok (.Address (wrap_add32 pc (sign_extend_16_32 w)), c)
  | .PcWithIndex => .error .crash
  | .AbsoluteShort =>
    match c.fetch_word bus with
    | .error e => .error e
    | .ok (w, c) => .ok (.Address w, c)
  | .AbsoluteLong =>
    match c.fetch_long bus with
    | .error e => .error e
    | .ok (l, c) => .ok (.Address l, c)
  | .Immediate => .ok (.Immediate, c)

/-- `Cpu::read_ea_byte`. -/
def Cpu.read_ea_byte (c : Cpu) (ea : ComputedEffectiveAddress) (bus : Bus) :
    Res (Nat × Cpu) :=
  match ea with
  | .DataRegister register =>
    match c.data[register]? with
    | some v => .ok (v % 256, c)
    | none => .error .crash
  | .AddressRegister _ => .error .crash
  | .Address addr => .ok (bus.read8 addr, c)
  | .Immediate =>
    match c.fetch_word bus with
    | .error e => .error e
    | .ok (w, c) => .ok (w % 256, c)

/-- `Cpu::read_ea_word`. -/
def Cpu.read_ea_word (c : Cpu) (ea : ComputedEffectiveAddress) (bus : Bus) :
    Res (Nat × Cpu) :=
  match ea with
  | .DataRegister register =>
    match c.data[register]? with
    | some v => .ok (v % 65536, c)
    | none => .error .crash
  | .AddressRegister _ => .error .crash
  | .Address addr => .ok (bus.read16 addr, c)
  | .Immediate => c.fetch_word bus

/-- `Cpu::read_ea_long`; the `AddressRegister` case routes A7. -/
def Cpu.read_ea_long (c : Cpu) (ea : ComputedEffectiveAddress) (bus : Bus) :
    Res (Nat × Cpu) :=
  match ea with
  | .DataRegister register =>
    match c.data[register]? with
    | some v => .ok (v, c)
    | none => .error .crash
  | .AddressRegister register =>
    if register = 7 then
      .ok (if c.flag .Supervisor then c.ssp else c.usp, c)
    else
      match c.addr[register]? with
      | some a => .ok (a, c)
      | none => .error .crash
  | .Address addr => .ok (bus.read32 addr, c)
  | .Immediate => c.fetch_long bus

/-- `Cpu::write_ea_byte`: a data register keeps its untouched high bits. -/
def Cpu.write_ea_byte (c : Cpu) (ea : ComputedEffectiveAddress) (value : Nat) (bus : Bus) :
    Res (Cpu × Bus) :=
  match ea with
  | .DataRegister register =>
    match c.data[register]? with
    | some old =>
      .ok ({ c with data := c.data.set register ((old &&& 0xFFFFFF00) ||| value) }, bus)
    | none => .error .crash
  | .AddressRegister _ => .error .crash
  | .Address addr => .ok (c, bus.write8 addr value)
  | .Immediate => .error .crash

/-- `Cpu::write_ea_word`. -/
def Cpu.write_ea_word (c : Cpu) (ea : ComputedEffectiveAddress) (value : Nat) (bus : Bus) :
    Res (Cpu × Bus) :=
  match ea with
  | .DataRegister register =>
    match c.data[register]? with
    | some old =>
      .ok ({ c with data := c.data.set register ((old &&& 0xFFFF0000) ||| value) }, bus)
    | none => .error .crash
  | .AddressRegister _ => .error .crash
  | .Address addr => .ok (c, bus.write16 addr value)
  | .Immediate => .error .crash

/-- `Cpu::write_ea_long`; the `AddressRegister` case routes A7. -/
def Cpu.write_ea_long (c : Cpu) (ea : ComputedEffectiveAddress) (value : Nat) (bus : Bus) :
    Res (Cpu × Bus) :=
  match ea with
  | .DataRegister register =>
    match c.data[register]? with
    | some _ => .ok ({ c with data := c.data.set register value }, bus)
    | none => .error .crash
  | .AddressRegister register =>
    if register = 7 then
      if c.flag .Supervisor then .ok ({ c with ssp := value }, bus)
      else .ok ({ c with usp := value }, bus)
    else
      match c.addr[register]? with
      | some _ => .ok ({ c with addr := c.addr.set register value }, bus)
      | none => .error .crash
  | .Address addr => .ok (c, bus.write32 addr value)
  | .Immediate => .error .crash

/-- `Cpu::push_long`: pre-decrement the active stack pointer by 4 and write
the long there. -/
def Cpu.push_long (c : Cpu) (value : Nat) (bus : Bus) : Res (Cpu × Bus) :=
  if c.flag .Supervisor then
    let ssp := wrap_sub32 c.ssp 4
    .ok ({ c with ssp := ssp }, bus.write32 ssp value)
  else
    let usp := wrap_sub32 c.usp 4
    .ok ({ c with usp := usp }, bus.write32 usp value)

/-! One definition per arm of `Cpu::decode_execute`, in source order. -/

/-- `Instruction::OriToCcr` arm. -/
def exec_ori_to_ccr (c : Cpu) (bus : Bus) : Res (Cpu × Bus) :=
  match c.fetch_word bus with
  | .error e => .error e
  | .ok (value, c) =>
    let ccr := c.sr &&& 0x00FF
    .ok (c.set_sr ((c.sr &&& 0xFF00) ||| (ccr ||| (value &&& 0x00FF))), bus)

/-- `Instruction::OriToSr` arm. -/
def exec_ori_to_sr (c : Cpu) (bus : Bus) : Res (Cpu × Bus) :=
  match c.assert_supervisor with
  | .error e => .error e
  | .ok _ =>
    match c.fetch_word bus with
    | .error e => .error e
    | .ok (value, c) => .ok (c.set_sr (c.sr ||| value), bus)

/-- `Instruction::Ori` arm. -/
def exec_ori (c : Cpu) (size : Size) (ea : EffectiveAddress) (bus : Bus) : Res (Cpu × Bus) :=
  match size with
  | .Byte =>
    match c.compute_ea ea 1 bus with
    | .error e => .error e
    | .ok (ea, c) =>
      match c.read_ea_byte ea bus with
      | .error e => .error e
      | .ok (lhs, c) =>
        match c.fetch_word bus with
        | .error e => .error e
        | .ok (w, c) =>
          let imm := w % 256
          let result := lhs ||| imm
          let c := c.set_flag .Zero (result == 0)
          let c := c.set_flag .Negative ((result &&& 0x80) != 0)
          let c := c.set_flag .Carry false
          let c := c.set_flag .Overflow false
          c.write_ea_byte ea result bus
  | .Word =>
    match c.compute_ea ea 2 bus with
    | .error e => .error e
    | .ok (ea, c) =>
      match c.read_ea_word ea bus with
      | .error e => .error e
      | .ok (lhs, c) =>
        match c.fetch_word bus with
        | .error e => .error e
        | .ok (imm, c) =>
          let result := lhs ||| imm
          let c := c.set_flag .Zero (result == 0)
          let c := c.set_flag .Negative ((result &&& 0x8000) != 0)
          let c := c.set_flag .Carry false
          let c := c.set_flag .Overflow false
          c.write_ea_word ea result bus
  | .Long =>
    match c.compute_ea ea 4 bus with
    | .error e => .error e
    | .ok (ea, c) =>
      match c.read_ea_long ea bus with
      | .error e => .error e
      | .ok (lhs, c) =>
        match c.fetch_long bus with
        | .error e => .error e
        | .ok (imm, c) =>
          let result := lhs ||| imm
          let c := c.set_flag .Zero (result == 0)
          let c := c.set_flag .Negative ((result &&& 0x80000000) != 0)
          let c := c.set_flag .Carry false
          let c := c.set_flag .Overflow false
          c.write_ea_long ea result bus

/-- `Instruction::AndiToCcr` arm. -/
def exec_andi_to_ccr (c : Cpu) (bus : Bus) : Res (Cpu × Bus) :=
  match c.fetch_word bus with
  | .error e => .error e
  | .ok (value, c) =>
    let ccr := c.sr &&& 0x00FF
    .ok (c.set_sr ((c.sr &&& 0xFF00) ||| (ccr &&& (value &&& 0x00FF))), bus)

/-- `Instruction::AndiToSr` arm. -/
def exec_andi_to_sr (c : Cpu) (bus : Bus) : Res (Cpu × Bus) :=
  match c.assert_supervisor with
  | .error e => .error e
  | .ok _ =>
    match c.fetch_word bus with
    | .error e => .error e
    | .ok (value, c) => .ok (c.set_sr (c.sr &&& value), bus)

/-- `Instruction::Andi` arm. -/
def exec_andi (c : Cpu) (size : Size) (ea : EffectiveAddress) (bus : Bus) : Res (Cpu × Bus) :=
  match size with
  | .Byte =>
    match c.compute_ea ea 1 bus with
    | .error e => .error e
    | .ok (ea, c) =>
      match c.read_ea_byte ea bus with
      | .error e => .error e
      | .ok (lhs, c) =>
        match c.fetch_word bus with
        | .error e => .error e
        | .ok (w, c) =>
          let imm := w % 256
          let result := lhs &&& imm
          let c := c.set_flag .Zero (result == 0)
          let c := c.set_flag .Negative ((result &&& 0x80) != 0)
          let c := c.set_flag .Carry false
          let c := c.set_flag .Overflow false
          c.write_ea_byte ea result bus
  | .Word =>
    match c.compute_ea ea 2 bus with
    | .error e => .error e
    | .ok (ea, c) =>
      match c.read_ea_word ea bus with
      | .error e => .error e
      | .ok (lhs, c) =>
        match c.fetch_word bus with
        | .error e => .error e
        | .ok (imm, c) =>
          let result := lhs &&& imm
          let c := c.set_flag .Zero (result == 0)
          let c := c.set_flag .Negative ((result &&& 0x8000) != 0)
          let c := c.set_flag .Carry false
          let c := c.set_flag .Overflow false
          c.write_ea_word ea result bus
  | .Long =>
    match c.compute_ea ea 4 bus with
    | .error e => .error e
    | .ok (ea, c) =>
      match c.read_ea_long ea bus with
      | .error e => .error e
      | .ok (lhs, c) =>
        match c.fetch_long bus with
        | .error e => .error e
        | .ok (imm, c) =>
          let result := lhs &&& imm
          let c := c.set_flag .Zero (result == 0)
          let c := c.set_flag .Negative ((result &&& 0x80000000) != 0)
          let c := c.set_flag .Carry false
          let c := c.set_flag .Overflow false
          c.write_ea_long ea result bus

/-- `Instruction::Subi` arm. -/
def exec_subi (c : Cpu) (size : Size) (ea : EffectiveAddress) (bus : Bus) : Res (Cpu × Bus) :=
  match size with
  | .Byte =>
    match c.compute_ea ea 1 bus with
    | .error e => .error e
    | .ok (ea, c) =>
      match c.read_ea_byte ea bus with
      | .error e => .error e
      | .ok (lhs, c) =>
        match c.fetch_word bus with
        | .error e => .error e
        | .ok (w, c) =>
          let imm := w % 256
          let result := (borrowing_sub8 lhs imm false).1
          let borrow := (borrowing_sub8 lhs imm false).2
          let overflow := decide (lhs < imm)
          let c := c.set_flag .Zero (result == 0)
          let c := c.set_flag .Negative ((result &&& 0x80) != 0)
          let c := c.set_flag .Carry borrow
          let c := c.set_flag .Extend borrow
          let c := c.set_flag .Overflow overflow
          c.write_ea_byte ea result bus
  | .Word =>
    match c.compute_ea ea 2 bus with
    | .error e => .error e
    | .ok (ea, c) =>
      match c.read_ea_word ea bus with
      | .error e => .error e
      | .ok (lhs, c) =>
        match c.fetch_word bus with
        | .error e => .error e
        | .ok (imm, c) =>
          let result := (borrowing_sub16 lhs imm false).1
          let borrow := (borrowing_sub16 lhs imm false).2
          let overflow := decide (lhs < imm)
          let c := c.set_flag .Zero (result == 0)
          let c := c.set_flag .Negative ((result &&& 0x8000) != 0)
          let c := c.set_flag .Carry borrow
          let c := c.set_flag .Extend borrow
          let c := c.set_flag .Overflow overflow
          c.write_ea_word ea result bus
  | .Long =>
    match c.compute_ea ea 4 bus with
    | .error e => .error e
    | .ok (ea, c) =>
      match c.read_ea_long ea bus with
      | .error e => .error e
      | .ok (lhs, c) =>
        match c.fetch_long bus with
        | .error e => .error e
        | .ok (imm, c) =>
          let result := (borrowing_sub32 lhs imm false).1
          let borrow := (borrowing_sub32 lhs imm false).2
          let overflow := decide (lhs < imm)
          let c := c.set_flag .Zero (result == 0)
          let c := c.set_flag .Negative ((result &&& 0x80000000) != 0)
          let c := c.set_flag .Carry borrow
          let c := c.set_flag .Extend borrow
          let c := c.set_flag .Overflow overflow
          c.write_ea_long ea result bus

/-- `Instruction::Addi` arm. -/
def exec_addi (c : Cpu) (size : Size) (ea : EffectiveAddress) (bus : Bus) : Res (Cpu × Bus) :=
  match size with
  | .Byte =>
    match c.compute_ea ea 1 bus with
    | .error e => .error e
    | .ok (ea, c) =>
      match c.read_ea_byte ea bus with
      | .error e => .error e
      | .ok (lhs, c) =>
        match c.fetch_word bus with
        | .error e => .error e
        | .ok (w, c) =>
          let imm := w % 256
          let result := (carrying_add8 lhs imm false).1
          let carry := (carrying_add8 lhs imm false).2
          let overflow := decide (256 ≤ lhs + imm)
          let c := c.set_flag .Zero (result == 0)
          let c := c.set_flag .Negative ((result &&& 0x80) != 0)
          let c := c.set_flag .Carry carry
          let c := c.set_flag .Extend carry
          let c := c.set_flag .Overflow overflow
          c.write_ea_byte ea result bus
  | .Word =>
    match c.compute_ea ea 2 bus with
    | .error e => .error e
    | .ok (ea, c) =>
      match c.read_ea_word ea bus with
      | .error e => .error e
      | .ok (lhs, c) =>
        match c.fetch_word bus with
        | .error e => .error e
        | .ok (imm, c) =>
          let result := (carrying_add16 lhs imm false).1
          let carry := (carrying_add16 lhs imm false).2
          let overflow := decide (65536 ≤ lhs + imm)
          let c := c.set_flag .Zero (result == 0)
          let c := c.set_flag .Negative ((result &&& 0x8000) != 0)
          let c := c.set_flag .Carry carry
          let c := c.set_flag .Extend carry
          let c := c.set_flag .Overflow overflow
          c.write_ea_word ea result bus
  | .Long =>
    match c.compute_ea ea 4 bus with
    | .error e => .error e
    | .ok (ea, c) =>
      match c.read_ea_long ea bus with
      | .error e => .error e
      | .ok (lhs, c) =>
        match c.fetch_long bus with
        | .error e => .error e
        | .ok (imm, c) =>
          let result := (carrying_add32 lhs imm false).1
          let carry := (carrying_add32 lhs imm false).2
          let overflow := decide (4294967296 ≤ lhs + imm)
          let c := c.set_flag .Zero (result == 0)
          let c := c.set_flag .Negative ((result &&& 0x80000000) != 0)
          let c := c.set_flag .Carry carry
          let c := c.set_flag .Extend carry
          let c := c.set_flag .Overflow overflow
          c.write_ea_long ea result bus

/-- `Instruction::EoriToCcr` arm. -/
def exec_eori_to_ccr (c : Cpu) (bus : Bus) : Res (Cpu × Bus) :=
  match c.fetch_word bus with
  | .error e => .error e
  | .ok (value, c) =>
    let ccr := c.sr &&& 0x00FF
    .ok (c.set_sr ((c.sr &&& 0xFF00) ||| (ccr ^^^ (value &&& 0x00FF))), bus)

/-- `Instruction::EoriToSr` arm. -/
def exec_eori_to_sr (c : Cpu) (bus : Bus) : Res (Cpu × Bus) :=
  match c.assert_supervisor with
  | .error e => .error e
  | .ok _ =>
    match c.fetch_word bus with
    | .error e => .error e
    | .ok (value, c) => .ok (c.set_sr (c.sr ^^^ value), bus)

/-- `Instruction::Eori` arm. -/
def exec_eori (c : Cpu) (size : Size) (ea : EffectiveAddress) (bus : Bus) : Res (Cpu × Bus) :=
  match size with
  | .Byte =>
    match c.compute_ea ea 1 bus with
    | .error e => .error e
    | .ok (ea, c) =>
      match c.read_ea_byte ea bus with
      | .error e => .error e
      | .ok (lhs, c) =>
        match c.fetch_word bus with
        | .error e => .error e
        | .ok (w, c) =>
          let imm := w % 256
          let result := lhs ^^^ imm
          let c := c.set_flag .Zero (result == 0)
          let c := c.set_flag .Negative ((result &&& 0x80) != 0)
          let c := c.set_flag .Carry false
          let c := c.set_flag .Overflow false
          c.write_ea_byte ea result bus
  | .Word =>
    match c.compute_ea ea 2 bus with
    | .error e => .error e
    | .ok (ea, c) =>
      match c.read_ea_word ea bus with
      | .error e => .error e
      | .ok (lhs, c) =>
        match c.fetch_word bus with
        | .error e => .error e
        | .ok (imm, c) =>
          let result := lhs ^^^ imm
          let c := c.set_flag .Zero (result == 0)
          let c := c.set_flag .Negative ((result &&& 0x8000) != 0)
          let c := c.set_flag .Carry false
          let c := c.set_flag .Overflow false
          c.write_ea_word ea result bus
  | .Long =>
    match c.compute_ea ea 4 bus with
    | .error e => .error e
    | .ok (ea, c) =>
      match c.read_ea_long ea bus with
      | .error e => .error e
      | .ok (lhs, c) =>
        match c.fetch_long bus with
        | .error e => .error e
        | .ok (imm, c) =>
          let result := lhs ^^^ imm
          let c := c.set_flag .Zero (result == 0)
          let c := c.set_flag .Negative ((result &&& 0x80000000) != 0)
          let c := c.set_flag .Carry false
          let c := c.set_flag .Overflow false
          c.write_ea_long ea result bus

/-- `Instruction::Cmpi` arm, as implemented: it sets Z, N, the Extend flag
(to the borrow) and Overflow (to `checked_sub(..).is_none()`, i.e. again
the unsigned borrow), does not touch Carry, and does not write back. -/
def exec_cmpi (c : Cpu) (size : Size) (ea : EffectiveAddress) (bus : Bus) : Res (Cpu × Bus) :=
  match size with
  | .Byte =>
    match c.compute_ea ea 1 bus with
    | .error e => .error e
    | .ok (ea, c) =>
      match c.read_ea_byte ea bus with
      | .error e => .error e
      | .ok (lhs, c) =>
        match c.fetch_word bus with
        | .error e => .error e
        | .ok (w, c) =>
          let imm := w % 256
          let result := (borrowing_sub8 lhs imm false).1
          let borrow := (borrowing_sub8 lhs imm false).2
          let overflow := decide (lhs < imm)
          let c := c.set_flag .Zero (result == 0)
          let c := c.set_flag .Negative ((result &&& 0x80) != 0)
          let c := c.set_flag .Extend borrow
          let c := c.set_flag .Overflow overflow
          .ok (c, bus)
  | .Word =>
    match c.compute_ea ea 2 bus with
    | .error e => .error e
    | .ok (ea, c) =>
      match c.read_ea_word ea bus with
      | .error e => .error e
      | .ok (lhs, c) =>
        match c.fetch_word bus with
        | .error e => .error e
        | .ok (imm, c) =>
          let result := (borrowing_sub16 lhs imm false).1
          let borrow := (borrowing_sub16 lhs imm false).2
          let overflow := decide (lhs < imm)
          let c := c.set_flag .Zero (result == 0)
          let c := c.set_flag .Negative ((result &&& 0x8000) != 0)
          let c := c.set_flag .Extend borrow
          let c := c.set_flag .Overflow overflow
          .ok (c, bus)
  | .Long =>
    match c.compute_ea ea 4 bus with
    | .error e => .error e
    | .ok (ea, c) =>
      match c.read_ea_long ea bus with
      | .error e => .error e
      | .ok (lhs, c) =>
        match c.fetch_long bus with
        | .error e => .error e
        | .ok (imm, c) =>
          let result := (borrowing_sub32 lhs imm false).1
          let borrow := (borrowing_sub32 lhs imm false).2
          let overflow := decide (lhs < imm)
          let c := c.set_flag .Zero (result == 0)
          let c := c.set_flag .Negative ((result &&& 0x80000000) != 0)
          let c := c.set_flag .Extend borrow
          let c := c.set_flag .Overflow overflow
          .ok (c, bus)

/-- Shared body of the bit-instruction arms: operand value and bit-number
mask (modulo 32 for a data register, modulo 8 otherwise), then the selected
bit number. -/
def bit_operand (c : Cpu) (ea : ComputedEffectiveAddress) (bus : Bus) :
    Res ((Nat × Nat) × Cpu) :=
  match ea with
  | .DataRegister register =>
    match c.data[register]? with
    | some v => .ok ((v, 0b11111), c)
    | none => .error .crash
  | _ =>
    match c.read_ea_byte ea bus with
    | .error e => .error e
    | .ok (v, c) => .ok ((v, 0b111), c)

/-- Shared bit-number selection of the bit-instruction arms: a register
operand takes the bit number from that data register, an immediate operand
fetches it from the instruction stream; either is masked. -/
def bit_number (c : Cpu) (register : Option Nat) (mask : Nat) (bus : Bus) :
    Res (Nat × Cpu) :=
  match register with
  | some register =>
    match c.data[register]? with
    | some v => .ok (v &&& mask, c)
    | none => .error .crash
  | none =>
    match c.fetch_word bus with
    | .error e => .error e
    | .ok (w, c) => .ok (w &&& mask, c)

/-- `Instruction::Btst` arm. -/
def exec_btst (c : Cpu) (register : Option Nat) (ea : EffectiveAddress) (bus : Bus) :
    Res (Cpu × Bus) :=
  match c.compute_ea ea 1 bus with
  | .error e => .error e
  | .ok (ea, c) =>
    match bit_operand c ea bus with
    | .error e => .error e
    | .ok ((value, mask), c) =>
      match bit_number c register mask bus with
      | .error e => .error e
      | .ok (bit, c) =>
        let c := c.set_flag .Zero (((1 <<< bit) &&& value) == 0)
        .ok (c, bus)

/-- `Instruction::Bchg` arm. -/
def exec_bchg (c : Cpu) (register : Option Nat) (ea : EffectiveAddress) (bus : Bus) :
    Res (Cpu × Bus) :=
  match c.compute_ea ea 1 bus with
  | .error e => .error e
  | .ok (ea, c) =>
    match bit_operand c ea bus with
    | .error e => .error e
    | .ok ((value, mask), c) =>
      match bit_number c register mask bus with
      | .error e => .error e
      | .ok (bit, c) =>
        let c := c.set_flag .Zero (((1 <<< bit) &&& value) == 0)
        let value := value ^^^ (1 <<< bit)
        match ea with
        | .DataRegister _ => c.write_ea_long ea value bus
        | _ => c.write_ea_byte ea (value % 256) bus

/-- `Instruction::Bclr` arm. -/
def exec_bclr (c : Cpu) (register : Option Nat) (ea : EffectiveAddress) (bus : Bus) :
    Res (Cpu × Bus) :=
  match c.compute_ea ea 1 bus with
  | .error e => .error e
  | .ok (ea, c) =>
    match bit_operand c ea bus with
    | .error e => .error e
    | .ok ((value, mask), c) =>
      match bit_number c register mask bus with
      | .error e => .error e
      | .ok (bit, c) =>
        let c := c.set_flag .Zero (((1 <<< bit) &&& value) == 0)
        let value := value &&& (0xFFFFFFFF ^^^ (1 <<< bit))
        match ea with
        | .DataRegister _ => c.write_ea_long ea value bus
        | _ => c.write_ea_byte ea (value % 256) bus

/-- `Instruction::Bset` arm. -/
def exec_bset (c : Cpu) (register : Option Nat) (ea : EffectiveAddress) (bus : Bus) :
    Res (Cpu × Bus) :=
  match c.compute_ea ea 1 bus with
  | .error e => .error e
  | .ok (ea, c) =>
    match bit_operand c ea bus with
    | .error e => .error e
    | .ok ((value, mask), c) =>
      match bit_number c register mask bus with
      | .error e => .error e
      | .ok (bit, c) =>
        let c := c.set_flag .Zero (((1 <<< bit) &&& value) == 0)
        let value := value ||| (1 <<< bit)
        match ea with
        | .DataRegister _ => c.write_ea_long ea value bus
        | _ => c.write_ea_byte ea (value % 256) bus

/-- `Instruction::Movea` arm, as implemented: the Word variant merges the
word into the low 16 bits of the destination address register, keeping the
old high 16 bits; no flag is touched; the Byte variant is `unreachable!`. -/
def exec_movea (c : Cpu) (size : Size) (ea : EffectiveAddress) (register : Nat) (bus : Bus) :
    Res (Cpu × Bus) :=
  match size with
  | .Word =>
    match c.compute_ea ea 2 bus with
    | .error e => .error e
    | .ok (ea, c) =>
      match c.read_ea_word ea bus with
      | .error e => .error e
      | .ok (value, c) =>
        if register = 7 then
          if c.flag .Supervisor then
            .ok ({ c with ssp := (c.ssp &&& 0xFFFF0000) ||| value }, bus)
          else
            .ok ({ c with usp := (c.usp &&& 0xFFFF0000) ||| value }, bus)
        else
          match c.addr[register]? with
          | some a =>
            .ok ({ c with addr := c.addr.set register ((a &&& 0xFFFF0000) ||| value) }, bus)
          | none => .error .crash
  | .Long =>
    match c.compute_ea ea 4 bus with
    | .error e => .error e
    | .ok (ea, c) =>
      match c.read_ea_long ea bus with
      | .error e => .error e
      | .ok (value, c) =>
        if register = 7 then
          if c.flag .Supervisor then .ok ({ c with ssp := value }, bus)
          else .ok ({ c with usp := value }, bus)
        else
          match c.addr[register]? with
          | some _ => .ok ({ c with addr := c.addr.set register value }, bus)
          | none => .error .crash
  | .Byte => .error .crash

/-- `Instruction::Move` arm. -/
def exec_move (c : Cpu) (size : Size) (src dst : EffectiveAddress) (bus : Bus) :
    Res (Cpu × Bus) :=
  match size with
  | .Byte =>
    match c.compute_ea src 1 bus with
    | .error e => .error e
    | .ok (src, c) =>
      match c.read_ea_byte src bus with
      | .error e => .error e
      | .ok (value, c) =>
        let c := c.set_flag .Zero (value == 0)
        let c := c.set_flag .Negative ((value &&& 0x80) == 0x80)
        let c := c.set_flag .Carry false
        let c := c.set_flag .Overflow false
        match c.compute_ea dst 1 bus with
        | .error e => .error e
        | .ok (dst, c) => c.write_ea_byte dst value bus
  | .Word =>
    match c.compute_ea src 2 bus with
    | .error e => .error e
    | .ok (src, c) =>
      match c.read_ea_word src bus with
      | .error e => .error e
      | .ok (value, c) =>
        let c := c.set_flag .Zero (value == 0)
        let c := c.set_flag .Negative ((value &&& 0x8000) == 0x8000)
        let c := c.set_flag .Carry false
        let c := c.set_flag .Overflow false
        match c.compute_ea dst 2 bus with
        | .error e => .error e
        | .ok (dst, c) => c.write_ea_word dst value bus
  | .Long =>
    match c.compute_ea src 4 bus with
    | .error e => .error e
    | .ok (src, c) =>
      match c.read_ea_long src bus with
      | .error e => .error e
      | .ok (value, c) =>
        let c := c.set_flag .Zero (value == 0)
        let c := c.set_flag .Negative ((value &&& 0x80000000) == 0x80000000)
        let c := c.set_flag .Carry false
        let c := c.set_flag .Overflow false
        match c.compute_ea dst 4 bus with
        | .error e => .error e
        | .ok (dst, c) => c.write_ea_long dst value bus

/-- `Instruction::MoveFromSr` arm. -/
def exec_move_from_sr (c : Cpu) (ea : EffectiveAddress) (bus : Bus) : Res (Cpu × Bus) :=
  match c.assert_supervisor with
  | .error e => .error e
  | .ok _ =>
    match c.compute_ea ea 2 bus with
    | .error e => .error e
    | .ok (ea, c) => c.write_ea_word ea c.sr bus

/-- `Instruction::MoveToCcr` arm. -/
def exec_move_to_ccr (c : Cpu) (ea : EffectiveAddress) (bus : Bus) : Res (Cpu × Bus) :=
  match c.compute_ea ea 1 bus with
  | .error e => .error e
  | .ok (ea, c) =>
    match c.read_ea_byte ea bus with
    | .error e => .error e
    | .ok (value, c) => .ok (c.set_sr ((c.sr &&& 0xFF00) ||| value), bus)

/-- `Instruction::MoveToSr` arm. -/
def exec_move_to_sr (c : Cpu) (ea : EffectiveAddress) (bus : Bus) : Res (Cpu × Bus) :=
  match c.assert_supervisor with
  | .error e => .error e
  | .ok _ =>
    match c.compute_ea ea 2 bus with
    | .error e => .error e
    | .ok (ea, c) =>
      match c.read_ea_word ea bus with
      | .error e => .error e
      | .ok (value, c) => .ok (c.set_sr value, bus)

/-- `Instruction::Negx` arm.  The source passes increment 1 to `compute_ea`
for all three widths, and computes overflow from nested `checked_sub` calls
(total when the operand is 0 and the Extend flag is set). -/
def exec_negx (c : Cpu) (size : Size) (ea : EffectiveAddress) (bus : Bus) : Res (Cpu × Bus) :=
  match size with
  | .Byte =>
    match c.compute_ea ea 1 bus with
    | .error e => .error e
    | .ok (ea, c) =>
      match c.read_ea_byte ea bus with
      | .error e => .error e
      | .ok (value, c) =>
        let result := (borrowing_sub8 0 value (c.flag .Extend)).1
        let borrow := (borrowing_sub8 0 value (c.flag .Extend)).2
        let overflow := if value = 0 then !(c.flag .Extend) else true
        let c := c.set_flag .Zero (result == 0)
        let c := c.set_flag .Negative ((result &&& 0x80) != 0)
        let c := c.set_flag .Carry borrow
        let c := c.set_flag .Extend borrow
        let c := c.set_flag .Overflow overflow
        c.write_ea_byte ea result bus
  | .Word =>
    match c.compute_ea ea 1 bus with
    | .error e => .error e
    | .ok (ea, c) =>
      match c.read_ea_word ea bus with
      | .error e => .error e
      | .ok (value, c) =>
        let result := (borrowing_sub16 0 value (c.flag .Extend)).1
        let borrow := (borrowing_sub16 0 value (c.flag .Extend)).2
        let overflow := if value = 0 then !(c.flag .Extend) else true
        let c := c.set_flag .Zero (result == 0)
        let c := c.set_flag .Negative ((result &&& 0x8000) != 0)
        let c := c.set_flag .Carry borrow
        let c := c.set_flag .Extend borrow
        let c := c.set_flag .Overflow overflow
        c.write_ea_word ea result bus
  | .Long =>
    match c.compute_ea ea 1 bus with
    | .error e => .error e
    | .ok (ea, c) =>
      match c.read_ea_long ea bus with
      | .error e => .error e
      | .ok (value, c) =>
        let result := (borrowing_sub32 0 value (c.flag .Extend)).1
        let borrow := (borrowing_sub32 0 value (c.flag .Extend)).2
        let overflow := if value = 0 then !(c.flag .Extend) else true
        let c := c.set_flag .Zero (result == 0)
        let c := c.set_flag .Negative ((result &&& 0x80000000) != 0)
        let c := c.set_flag .Carry borrow
        let c := c.set_flag .Extend borrow
        let c := c.set_flag .Overflow overflow
        c.write_ea_long ea result bus

/-- `Instruction::Clr` arm. -/
def exec_clr (c : Cpu) (size : Size) (ea : EffectiveAddress) (bus : Bus) : Res (Cpu × Bus) :=
  match size with
  | .Byte =>
    match c.compute_ea ea 1 bus with
    | .error e => .error e
    | .ok (ea, c) =>
      let c := c.set_flag .Zero true
      let c := c.set_flag .Negative false
      let c := c.set_flag .Carry false
      let c := c.set_flag .Overflow false
      c.write_ea_byte ea 0 bus
  | .Word =>
    match c.compute_ea ea 2 bus with
    | .error e => .error e
    | .ok (ea, c) =>
      let c := c.set_flag .Zero true
      let c := c.set_flag .Negative false
      let c := c.set_flag .Carry false
      let c := c.set_flag .Overflow false
      c.write_ea_word ea 0 bus
  | .Long =>
    match c.compute_ea ea 4 bus with
    | .error e => .error e
    | .ok (ea, c) =>
      let c := c.set_flag .Zero true
      let c := c.set_flag .Negative false
      let c := c.set_flag .Carry false
      let c := c.set_flag .Overflow false
      c.write_ea_long ea 0 bus

/-- `Instruction::Neg` arm (the source passes increment 1 for Word and Long
as well). -/
def exec_neg (c : Cpu) (size : Size) (ea : EffectiveAddress) (bus : Bus) : Res (Cpu × Bus) :=
  match size with
  | .Byte =>
    match c.compute_ea ea 1 bus with
    | .error e => .error e
    | .ok (ea, c) =>
      match c.read_ea_byte ea bus with
      | .error e => .error e
      | .ok (value, c) =>
        let result := (borrowing_sub8 0 value false).1
        let borrow := (borrowing_sub8 0 value false).2
        let overflow := decide (0 < value)
        let c := c.set_flag .Zero (result == 0)
        let c := c.set_flag .Negative ((result &&& 0x80) != 0)
        let c := c.set_flag .Carry borrow
        let c := c.set_flag .Extend borrow
        let c := c.set_flag .Overflow overflow
        c.write_ea_byte ea result bus
  | .Word =>
    match c.compute_ea ea 1 bus with
    | .error e => .error e
    | .ok (ea, c) =>
      match c.read_ea_word ea bus with
      | .error e => .error e
      | .ok (value, c) =>
        let result := (borrowing_sub16 0 value false).1
        let borrow := (borrowing_sub16 0 value false).2
        let overflow := decide (0 < value)
        let c := c.set_flag .Zero (result == 0)
        let c := c.set_flag .Negative ((result &&& 0x8000) != 0)
        let c := c.set_flag .Carry borrow
        let c := c.set_flag .Extend borrow
        let c := c.set_flag .Overflow overflow
        c.write_ea_word ea result bus
  | .Long =>
    match c.compute_ea ea 1 bus with
    | .error e => .error e
    | .ok (ea, c) =>
      match c.read_ea_long ea bus with
      | .error e => .error e
      | .ok (value, c) =>
        let result := (borrowing_sub32 0 value false).1
        let borrow := (borrowing_sub32 0 value false).2
        let overflow := decide (0 < value)
        let c := c.set_flag .Zero (result == 0)
        let c := c.set_flag .Negative ((result &&& 0x80000000) != 0)
        let c := c.set_flag .Carry borrow
        let c := c.set_flag .Extend borrow
        let c := c.set_flag .Overflow overflow
        c.write_ea_long ea result bus

/-- `Instruction::Not` arm; `!x` on uN is the N-bit complement. -/
def exec_not (c : Cpu) (size : Size) (ea : EffectiveAddress) (bus : Bus) : Res (Cpu × Bus) :=
  match size with
  | .Byte =>
    match c.compute_ea ea 1 bus with
    | .error e => .error e
    | .ok (ea, c) =>
      match c.read_ea_byte ea bus with
      | .error e => .error e
      | .ok (value, c) =>
        let result := value ^^^ 0xFF
        let c := c.set_flag .Zero (result == 0)
        let c := c.set_flag .Negative ((result &&& 0x80) != 0)
        let c := c.set_flag .Overflow false
        let c := c.set_flag .Carry false
        c.write_ea_byte ea result bus
  | .Word =>
    match c.compute_ea ea 2 bus with
    | .error e => .error e
    | .ok (ea, c) =>
      match c.read_ea_word ea bus with
      | .error e => .error e
      | .ok (value, c) =>
        let result := value ^^^ 0xFFFF
        let c := c.set_flag .Zero (result == 0)
        let c := c.set_flag .Negative ((result &&& 0x8000) != 0)
        let c := c.set_flag .Overflow false
        let c := c.set_flag .Carry false
        c.write_ea_word ea result bus
  | .Long =>
    match c.compute_ea ea 4 bus with
    | .error e => .error e
    | .ok (ea, c) =>
      match c.read_ea_long ea bus with
      | .error e => .error e
      | .ok (value, c) =>
        let result := value ^^^ 0xFFFFFFFF
        let c := c.set_flag .Zero (result == 0)
        let c := c.set_flag .Negative ((result &&& 0x80000000) != 0)
        let c := c.set_flag .Overflow false
        let c := c.set_flag .Carry false
        c.write_ea_long ea result bus

/-- `Instruction::Ext` arm; the Byte size is `unreachable!`. -/
def exec_ext (c : Cpu) (size : Size) (register : Nat) (bus : Bus) : Res (Cpu × Bus) :=
  match size with
  | .Word =>
    match c.data[register]? with
    | some d =>
      let result := sign_extend_8_16 (d % 256)
      let c := c.set_flag .Zero (result == 0)
      let c := c.set_flag .Negative ((result &&& 0x8000) != 0)
      let c := c.set_flag .Overflow false
      let c := c.set_flag .Carry false
      match c.data[register]? with
      | some d => .ok ({ c with data := c.data.set register ((d &&& 0xFFFF0000) ||| result) }, bus)
      | none => .error .crash
    | none => .error .crash
  | .Long =>
    match c.data[register]? with
    | some d =>
      let result := sign_extend_16_32 (d % 65536)
      let c := c.set_flag .Zero (result == 0)
      let c := c.set_flag .Negative ((result &&& 0x80000000) != 0)
      let c := c.set_flag .Overflow false
      let c := c.set_flag .Carry false
      .ok ({ c with data := c.data.set register result }, bus)
    | none => .error .crash
  | .Byte => .error .crash

/-- `Instruction::Swap` arm. -/
def exec_swap (c : Cpu) (register : Nat) (bus : Bus) : Res (Cpu × Bus) :=
  match c.data[register]? with
  | some value =>
    let result := ((value <<< 16) % 4294967296) ||| (value >>> 16)
    let c := { c with data := c.data.set register result }
    let c := c.set_flag .Zero (result == 0)
    let c := c.set_flag .Negative ((result &&& 0x80000000) != 0)
    let c := c.set_flag .Overflow false
    let c := c.set_flag .Carry false
    .ok (c, bus)
  | none => .error .crash

/-- `Instruction::Pea` arm, as implemented: it reads the long at the
computed effective address and pushes that value. -/
def exec_pea (c : Cpu) (ea : EffectiveAddress) (bus : Bus) : Res (Cpu × Bus) :=
  match c.compute_ea ea 4 bus with
  | .error e => .error e
  | .ok (ea, c) =>
    match c.read_ea_long ea bus with
    | .error e => .error e
    | .ok (value, c) => c.push_long value bus

/-- `Instruction::Tas` arm. -/
def exec_tas (c : Cpu) (ea : EffectiveAddress) (bus : Bus) : Res (Cpu × Bus) :=
  match c.compute_ea ea 1 bus with
  | .error e => .error e
  | .ok (ea, c) =>
    match c.read_ea_byte ea bus with
    | .error e => .error e
    | .ok (value, c) =>
      let c := c.set_flag .Zero (value == 0)
      let c := c.set_flag .Negative ((value &&& 0x80) != 0)
      let c := c.set_flag .Overflow false
      let c := c.set_flag .Carry false
      c.write_ea_byte ea (value ||| 0x80) bus

/-- `Instruction::Moveq` arm. -/
def exec_moveq (c : Cpu) (data : Nat) (register : Nat) (bus : Bus) : Res (Cpu × Bus) :=
  let result := sign_extend_8_32 data
  match c.data[register]? with
  | some _ =>
    let c := { c with data := c.data.set register result }
    let c := c.set_flag .Zero (result == 0)
    let c := c.set_flag .Negative ((result &&& 0x80000000) != 0)
    let c := c.set_flag .Overflow false
    let c := c.set_flag .Carry false
    .ok (c, bus)
  | none => .error .crash

/-- `Cpu::decode_execute`: fetch the opcode word, decode it (the CPU of
`sys/mod.rs` is `Version::MC68000`), dispatch.  The decoder lookup
`self.decoder.decode(opcode)` is `decode_entry` here: entry `opcode` of
`init_table` holds `decode_entry version opcode` by construction, which is
proved below as part of the decoder-totality theorem.  The `Movep` and
`Nbcd` arms and the catch-all arm are `todo!()`. -/
def Cpu.decode_execute (c : Cpu) (bus : Bus) : Res (Cpu × Bus) :=
  match c.fetch_word bus with
  | .error e => .error e
  | .ok (opcode, c) =>
    match decode_entry .MC68000 opcode with
    | .OriToCcr => exec_ori_to_ccr c bus
    | .OriToSr => exec_ori_to_sr c bus
    | .Ori size ea => exec_ori c size ea bus
    | .AndiToCcr => exec_andi_to_ccr c bus
    | .AndiToSr => exec_andi_to_sr c bus
    | .Andi size ea => exec_andi c size ea bus
    | .Subi size ea => exec_subi c size ea bus
    | .Addi size ea => exec_addi c size ea bus
    | .EoriToCcr => exec_eori_to_ccr c bus
    | .EoriToSr => exec_eori_to_sr c bus
    | .Eori size ea => exec_eori c size ea bus
    | .Cmpi size ea => exec_cmpi c size ea bus
    | .Btst register ea => exec_btst c register ea bus
    | .Bchg register ea => exec_bchg c register ea bus
    | .Bclr register ea => exec_bclr c register ea bus
    | .Bset register ea => exec_bset c register ea bus
    | .Movep _ _ _ _ => .error .crash
    | .Movea size ea register => exec_movea c size ea register bus
    | .Move size src dst => exec_move c size src dst bus
    | .MoveFromSr ea => exec_move_from_sr c ea bus
    | .MoveToCcr ea => exec_move_to_ccr c ea bus
    | .MoveToSr ea => exec_move_to_sr c ea bus
    | .Negx size ea => exec_negx c size ea bus
    | .Clr size ea => exec_clr c size ea bus
    | .Neg size ea => exec_neg c size ea bus
    | .Not size ea => exec_not c size ea bus
    | .Ext size register => exec_ext c size register bus
    | .Nbcd _ => .error .crash
    | .Swap register => exec_swap c register bus
    | .Pea ea => exec_pea c ea bus
    | .Illegal => .error (.exc (.IllegalInstruction opcode))
    | .Tas ea => exec_tas c ea bus
    | .Moveq data register => exec_moveq c data register bus
    | _ => .error .crash

/-- Successful-step extraction used to state concrete scenarios. -/
def step_result (c : Cpu) (bus : Bus) : Option (Cpu × Bus) :=
  (c.decode_execute bus).toOption

/-- The states a `Cpu` can be in during a run of the program: freshly
constructed, reset, or after a successfully executed instruction. -/
inductive Reachable : Cpu → Prop
  | new : Reachable Cpu.new
  | reset (c : Cpu) (bus : Bus) : Reachable c → Reachable (c.reset bus)
  | step (c : Cpu) (bus : Bus) (c' : Cpu) (bus' : Bus) :
      Reachable c → c.decode_execute bus = .ok (c', bus') → Reachable c'

/-! Preservation of the `is_stopped` field: no helper of the execution
engine ever writes it.  One lemma per helper, then one per instruction
arm, then the dispatcher. -/

@[simp] theorem set_sr_is_stopped (c : Cpu) (v : Nat) :
    (c.set_sr v).is_stopped = c.is_stopped := rfl

@[simp] theorem set_flag_is_stopped (c : Cpu) (f : StatusFlag) (b : Bool) :
    (c.set_flag f b).is_stopped = c.is_stopped := by
  unfold Cpu.set_flag
  split <;> rfl

@[simp] theorem set_sr_data (c : Cpu) (v : Nat) : (c.set_sr v).data = c.data := rfl

@[simp] theorem set_flag_data (c : Cpu) (f : StatusFlag) (b : Bool) :
    (c.set_flag f b).data = c.data := by
  unfold Cpu.set_flag
  split <;> rfl

theorem fetch_word_stopped {c : Cpu} {bus : Bus} {w : Nat} {c' : Cpu}
    (h : c.fetch_word bus = .ok (w, c')) : c'.is_stopped = c.is_stopped := by
  unfold Cpu.fetch_word at h
  simp only [Except.ok.injEq, Prod.mk.injEq] at h
  obtain ⟨-, h2⟩ := h
  subst h2
  rfl

theorem fetch_long_stopped {c : Cpu} {bus : Bus} {w : Nat} {c' : Cpu}
    (h : c.fetch_long bus = .ok (w, c')) : c'.is_stopped = c.is_stopped := by
  unfold Cpu.fetch_long at h
  simp only [Except.ok.injEq, Prod.mk.injEq] at h
  obtain ⟨-, h2⟩ := h
  subst h2
  rfl

theorem compute_ea_stopped {c : Cpu} {ea : EffectiveAddress} {inc : Nat} {bus : Bus}
    {r : ComputedEffectiveAddress} {c' : Cpu}
    (h : c.compute_ea ea inc bus = .ok (r, c')) : c'.is_stopped = c.is_stopped := by
  unfold Cpu.compute_ea at h
  simp only [Cpu.fetch_word, Cpu.fetch_long] at h
  cases ea <;>
    (repeat' split at h) <;>
    first
      | (simp only [Except.ok.injEq, Prod.mk.injEq] at h
         obtain ⟨-, h2⟩ := h
         subst h2
         rfl)
      | simp_all

theorem read_ea_byte_stopped {c : Cpu} {ea : ComputedEffectiveAddress} {bus : Bus}
    {v : Nat} {c' : Cpu}
    (h : c.read_ea_byte ea bus = .ok (v, c')) : c'.is_stopped = c.is_stopped := by
  unfold Cpu.read_ea_byte at h
  simp only [Cpu.fetch_word] at h
  cases ea <;>
    (repeat' split at h) <;>
    first
      | (simp only [Except.ok.injEq, Prod.mk.injEq] at h
         obtain ⟨-, h2⟩ := h
         subst h2
         rfl)
      | simp_all

theorem read_ea_word_stopped {c : Cpu} {ea : ComputedEffectiveAddress} {bus : Bus}
    {v : Nat} {c' : Cpu}
    (h : c.read_ea_word ea bus = .ok (v, c')) : c'.is_stopped = c.is_stopped := by
  unfold Cpu.read_ea_word at h
  simp only [Cpu.fetch_word] at h
  cases ea <;>
    (repeat' split at h) <;>
    first
      | (simp only [Except.ok.injEq, Prod.mk.injEq] at h
         obtain ⟨-, h2⟩ := h
         subst h2
         rfl)
      | simp_all

theorem read_ea_long_stopped {c : Cpu} {ea : ComputedEffectiveAddress} {bus : Bus}
    {v : Nat} {c' : Cpu}
    (h : c.read_ea_long ea bus = .ok (v, c')) : c'.is_stopped = c.is_stopped := by
  unfold Cpu.read_ea_long at h
  simp only [Cpu.fetch_long] at h
  cases ea <;>
    (repeat' split at h) <;>
    first
      | (simp only [Except.ok.injEq, Prod.mk.injEq] at h
         obtain ⟨-, h2⟩ := h
         subst h2
         rfl)
      | simp_all

theorem write_ea_byte_stopped {c : Cpu} {ea : ComputedEffectiveAddress} {v : Nat} {bus : Bus}
    {c' : Cpu} {bus' : Bus}
    (h : c.write_ea_byte ea v bus = .ok (c', bus')) : c'.is_stopped = c.is_stopped := by
  unfold Cpu.write_ea_byte at h
  cases ea <;>
    (repeat' split at h) <;>
    first
      | (simp only [Except.ok.injEq, Prod.mk.injEq] at h
         obtain ⟨h2, -⟩ := h
         subst h2
         rfl)
      | simp_all

theorem write_ea_word_stopped {c : Cpu} {ea : ComputedEffectiveAddress} {v : Nat} {bus : Bus}
    {c' : Cpu} {bus' : Bus}
    (h : c.write_ea_word ea v bus = .ok (c', bus')) : c'.is_stopped = c.is_stopped := by
  unfold Cpu.write_ea_word at h
  cases ea <;>
    (repeat' split at h) <;>
    first
      | (simp only [Except.ok.injEq, Prod.mk.injEq] at h
         obtain ⟨h2, -⟩ := h
         subst h2
         rfl)
      | simp_all

theorem write_ea_long_stopped {c : Cpu} {ea : ComputedEffectiveAddress} {v : Nat} {bus : Bus}
    {c' : Cpu} {bus' : Bus}
    (h : c.write_ea_long ea v bus = .ok (c', bus')) : c'.is_stopped = c.is_stopped := by
  unfold Cpu.write_ea_long at h
  cases ea <;>
    (repeat' split at h) <;>
    first
      | (simp only [Except.ok.injEq, Prod.mk.injEq] at h
         obtain ⟨h2, -⟩ := h
         subst h2
         rfl)
      | simp_all

theorem push_long_stopped {c : Cpu} {v : Nat} {bus : Bus} {c' : Cpu} {bus' : Bus}
    (h : c.push_long v bus = .ok (c', bus')) : c'.is_stopped = c.is_stopped := by
  unfold Cpu.push_long at h
  (repeat' split at h) <;>
    first
      | (simp only [Except.ok.injEq, Prod.mk.injEq] at h
         obtain ⟨h2, -⟩ := h
         subst h2
         rfl)
      | simp_all

theorem bit_operand_stopped {c : Cpu} {ea : ComputedEffectiveAddress} {bus : Bus}
    {v : Nat × Nat} {c' : Cpu}
    (h : bit_operand c ea bus = .ok (v, c')) : c'.is_stopped = c.is_stopped := by
  unfold bit_operand at h
  (repeat' split at h) <;>
    first
      | (simp only [Except.ok.injEq, Prod.mk.injEq] at h
         obtain ⟨-, h2⟩ := h
         subst h2
         rfl)
      | (rename_i heq
         simp only [Except.ok.injEq, Prod.mk.injEq] at h
         obtain ⟨-, h2⟩ := h
         subst h2
         exact read_ea_byte_stopped heq)
      | simp_all

theorem bit_number_stopped {c : Cpu} {register : Option Nat} {mask : Nat} {bus : Bus}
    {v : Nat} {c' : Cpu}
    (h : bit_number c register mask bus = .ok (v, c')) : c'.is_stopped = c.is_stopped := by
  unfold bit_number at h
  simp only [Cpu.fetch_word] at h
  (repeat' split at h) <;>
    first
      | (simp only [Except.ok.injEq, Prod.mk.injEq] at h
         obtain ⟨-, h2⟩ := h
         subst h2
         rfl)
      | simp_all

theorem exec_ori_to_ccr_stopped {c : Cpu} {bus : Bus} {c' : Cpu} {bus' : Bus}
    (h : exec_ori_to_ccr c bus = .ok (c', bus')) : c'.is_stopped = c.is_stopped := by
  unfold exec_ori_to_ccr at h
  simp only [Cpu.fetch_word, Except.ok.injEq, Prod.mk.injEq] at h
  obtain ⟨h2, -⟩ := h
  subst h2
  rfl

theorem exec_ori_to_sr_stopped {c : Cpu} {bus : Bus} {c' : Cpu} {bus' : Bus}
    (h : exec_ori_to_sr c bus = .ok (c', bus')) : c'.is_stopped = c.is_stopped := by
  unfold exec_ori_to_sr at h
  cases h0 : c.assert_supervisor with
  | error e => rw [h0] at h; simp at h
  | ok u =>
    simp only [h0, Cpu.fetch_word, Except.ok.injEq, Prod.mk.injEq] at h
    obtain ⟨h2, -⟩ := h
    subst h2
    rfl

theorem exec_ori_stopped {c : Cpu} {size : Size} {ea : EffectiveAddress} {bus : Bus}
    {c' : Cpu} {bus' : Bus}
    (h : exec_ori c size ea bus = .ok (c', bus')) : c'.is_stopped = c.is_stopped := by
  unfold exec_ori at h
  cases size
  case Byte =>
    cases h1 : c.compute_ea ea 1 bus with
    | error e => rw [h1] at h; simp at h
    | ok p =>
      obtain ⟨cea, c1⟩ := p
      simp only [h1] at h
      cases h2 : c1.read_ea_byte cea bus with
      | error e => rw [h2] at h; simp at h
      | ok q =>
        obtain ⟨lhs, c2⟩ := q
        simp only [h2, Cpu.fetch_word] at h
        rw [write_ea_byte_stopped h]
        simp only [set_flag_is_stopped]
        rw [read_ea_byte_stopped h2, compute_ea_stopped h1]
  case Word =>
    cases h1 : c.compute_ea ea 2 bus with
    | error e => rw [h1] at h; simp at h
    | ok p =>
      obtain ⟨cea, c1⟩ := p
      simp only [h1] at h
      cases h2 : c1.read_ea_word cea bus with
      | error e => rw [h2] at h; simp at h
      | ok q =>
        obtain ⟨lhs, c2⟩ := q
        simp only [h2, Cpu.fetch_word] at h
        rw [write_ea_word_stopped h]
        simp only [set_flag_is_stopped]
        rw [read_ea_word_stopped h2, compute_ea_stopped h1]
  case Long =>
    cases h1 : c.compute_ea ea 4 bus with
    | error e => rw [h1] at h; simp at h
    | ok p =>
      obtain ⟨cea, c1⟩ := p
      simp only [h1] at h
      cases h2 : c1.read_ea_long cea bus with
      | error e => rw [h2] at h; simp at h
      | ok q =>
        obtain ⟨lhs, c2⟩ := q
        simp only [h2, Cpu.fetch_long] at h
        rw [write_ea_long_stopped h]
        simp only [set_flag_is_stopped]
        rw [read_ea_long_stopped h2, compute_ea_stopped h1]

theorem exec_andi_to_ccr_stopped {c : Cpu} {bus : Bus} {c' : Cpu} {bus' : Bus}
    (h : exec_andi_to_ccr c bus = .ok (c', bus')) : c'.is_stopped = c.is_stopped := by
  unfold exec_andi_to_ccr at h
  simp only [Cpu.fetch_word, Except.ok.injEq, Prod.mk.injEq] at h
  obtain ⟨h2, -⟩ := h
  subst h2
  rfl

theorem exec_andi_to_sr_stopped {c : Cpu} {bus : Bus} {c' : Cpu} {bus' : Bus}
    (h : exec_andi_to_sr c bus = .ok (c', bus')) : c'.is_stopped = c.is_stopped := by
  unfold exec_andi_to_sr at h
  cases h0 : c.assert_supervisor with
  | error e => rw [h0] at h; simp at h
  | ok u =>
    simp only [h0, Cpu.fetch_word, Except.ok.injEq, Prod.mk.injEq] at h
    obtain ⟨h2, -⟩ := h
    subst h2
    rfl

theorem exec_andi_stopped {c : Cpu} {size : Size} {ea : EffectiveAddress} {bus : Bus}
    {c' : Cpu} {bus' : Bus}
    (h : exec_andi c size ea bus = .ok (c', bus')) : c'.is_stopped = c.is_stopped := by
  unfold exec_andi at h
  cases size
  case Byte =>
    cases h1 : c.compute_ea ea 1 bus with
    | error e => rw [h1] at h; simp at h
    | ok p =>
      obtain ⟨cea, c1⟩ := p
      simp only [h1] at h
      cases h2 : c1.read_ea_byte cea bus with
      | error e => rw [h2] at h; simp at h
      | ok q =>
        obtain ⟨lhs, c2⟩ := q
        simp only [h2, Cpu.fetch_word] at h
        rw [write_ea_byte_stopped h]
        simp only [set_flag_is_stopped]
        rw [read_ea_byte_stopped h2, compute_ea_stopped h1]
  case Word =>
    cases h1 : c.compute_ea ea 2 bus with
    | error e => rw [h1] at h; simp at h
    | ok p =>
      obtain ⟨cea, c1⟩ := p
      simp only [h1] at h
      cases h2 : c1.read_ea_word cea bus with
      | error e => rw [h2] at h; simp at h
      | ok q =>
        obtain ⟨lhs, c2⟩ := q
        simp only [h2, Cpu.fetch_word] at h
        rw [write_ea_word_stopped h]
        simp only [set_flag_is_stopped]
        rw [read_ea_word_stopped h2, compute_ea_stopped h1]
  case Long =>
    cases h1 : c.compute_ea ea 4 bus with
    | error e => rw [h1] at h; simp at h
    | ok p =>
      obtain ⟨cea, c1⟩ := p
      simp only [h1] at h
      cases h2 : c1.read_ea_long cea bus with
      | error e => rw [h2] at h; simp at h
      | ok q =>
        obtain ⟨lhs, c2⟩ := q
        simp only [h2, Cpu.fetch_long] at h
        rw [write_ea_long_stopped h]
        simp only [set_flag_is_stopped]
        rw [read_ea_long_stopped h2, compute_ea_stopped h1]

theorem exec_subi_stopped {c : Cpu} {size : Size} {ea : EffectiveAddress} {bus : Bus}
    {c' : Cpu} {bus' : Bus}
    (h : exec_subi c size ea bus = .ok (c', bus')) : c'.is_stopped = c.is_stopped := by
  unfold exec_subi at h
  cases size
  case Byte =>
    cases h1 : c.compute_ea ea 1 bus with
    | error e => rw [h1] at h; simp at h
    | ok p =>
      obtain ⟨cea, c1⟩ := p
      simp only [h1] at h
      cases h2 : c1.read_ea_byte cea bus with
      | error e => rw [h2] at h; simp at h
      | ok q =>
        obtain ⟨lhs, c2⟩ := q
        simp only [h2, Cpu.fetch_word] at h
        rw [write_ea_byte_stopped h]
        simp only [set_flag_is_stopped]
        rw [read_ea_byte_stopped h2, compute_ea_stopped h1]
  case Word =>
    cases h1 : c.compute_ea ea 2 bus with
    | error e => rw [h1] at h; simp at h
    | ok p =>
      obtain ⟨cea, c1⟩ := p
      simp only [h1] at h
      cases h2 : c1.read_ea_word cea bus with
      | error e => rw [h2] at h; simp at h
      | ok q =>
        obtain ⟨lhs, c2⟩ := q
        simp only [h2, Cpu.fetch_word] at h
        rw [write_ea_word_stopped h]
        simp only [set_flag_is_stopped]
        rw [read_ea_word_stopped h2, compute_ea_stopped h1]
  case Long =>
    cases h1 : c.compute_ea ea 4 bus with
    | error e => rw [h1] at h; simp at h
    | ok p =>
      obtain ⟨cea, c1⟩ := p
      simp only [h1] at h
      cases h2 : c1.read_ea_long cea bus with
      | error e => rw [h2] at h; simp at h
      | ok q =>
        obtain ⟨lhs, c2⟩ := q
        simp only [h2, Cpu.fetch_long] at h
        rw [write_ea_long_stopped h]
        simp only [set_flag_is_stopped]
        rw [read_ea_long_stopped h2, compute_ea_stopped h1]

theorem exec_addi_stopped {c : Cpu} {size : Size} {ea : EffectiveAddress} {bus : Bus}
    {c' : Cpu} {bus' : Bus}
    (h : exec_addi c size ea bus = .ok (c', bus')) : c'.is_stopped = c.is_stopped := by
  unfold exec_addi at h
  cases size
  case Byte =>
    cases h1 : c.compute_ea ea 1 bus with
    | error e => rw [h1] at h; simp at h
    | ok p =>
      obtain ⟨cea, c1⟩ := p
      simp only [h1] at h
      cases h2 : c1.read_ea_byte cea bus with
      | error e => rw [h2] at h; simp at h
      | ok q =>
        obtain ⟨lhs, c2⟩ := q
        simp only [h2, Cpu.fetch_word] at h
        rw [write_ea_byte_stopped h]
        simp only [set_flag_is_stopped]
        rw [read_ea_byte_stopped h2, compute_ea_stopped h1]
  case Word =>
    cases h1 : c.compute_ea ea 2 bus with
    | error e => rw [h1] at h; simp at h
    | ok p =>
      obtain ⟨cea, c1⟩ := p
      simp only [h1] at h
      cases h2 : c1.read_ea_word cea bus with
      | error e => rw [h2] at h; simp at h
      | ok q =>
        obtain ⟨lhs, c2⟩ := q
        simp only [h2, Cpu.fetch_word] at h
        rw [write_ea_word_stopped h]
        simp only [set_flag_is_stopped]
        rw [read_ea_word_stopped h2, compute_ea_stopped h1]
  case Long =>
    cases h1 : c.compute_ea ea 4 bus with
    | error e => rw [h1] at h; simp at h
    | ok p =>
      obtain ⟨cea, c1⟩ := p
      simp only [h1] at h
      cases h2 : c1.read_ea_long cea bus with
      | error e => rw [h2] at h; simp at h
      | ok q =>
        obtain ⟨lhs, c2⟩ := q
        simp only [h2, Cpu.fetch_long] at h
        rw [write_ea_long_stopped h]
        simp only [set_flag_is_stopped]
        rw [read_ea_long_stopped h2, compute_ea_stopped h1]

theorem exec_eori_to_ccr_stopped {c : Cpu} {bus : Bus} {c' : Cpu} {bus' : Bus}
    (h : exec_eori_to_ccr c bus = .ok (c', bus')) : c'.is_stopped = c.is_stopped := by
  unfold exec_eori_to_ccr at h
  simp only [Cpu.fetch_word, Except.ok.injEq, Prod.mk.injEq] at h
  obtain ⟨h2, -⟩ := h
  subst h2
  rfl

theorem exec_eori_to_sr_stopped {c : Cpu} {bus : Bus} {c' : Cpu} {bus' : Bus}
    (h : exec_eori_to_sr c bus = .ok (c', bus')) : c'.is_stopped = c.is_stopped := by
  unfold exec_eori_to_sr at h
  cases h0 : c.assert_supervisor with
  | error e => rw [h0] at h; simp at h
  | ok u =>
    simp only [h0, Cpu.fetch_word, Except.ok.injEq, Prod.mk.injEq] at h
    obtain ⟨h2, -⟩ := h
    subst h2
    rfl

theorem exec_eori_stopped {c : Cpu} {size : Size} {ea : EffectiveAddress} {bus : Bus}
    {c' : Cpu} {bus' : Bus}
    (h : exec_eori c size ea bus = .ok (c', bus')) : c'.is_stopped = c.is_stopped := by
  unfold exec_eori at h
  cases size
  case Byte =>
    cases h1 : c.compute_ea ea 1 bus with
    | error e => rw [h1] at h; simp at h
    | ok p =>
      obtain ⟨cea, c1⟩ := p
      simp only [h1] at h
      cases h2 : c1.read_ea_byte cea bus with
      | error e => rw [h2] at h; simp at h
      | ok q =>
        obtain ⟨lhs, c2⟩ := q
        simp only [h2, Cpu.fetch_word] at h
        rw [write_ea_byte_stopped h]
        simp only [set_flag_is_stopped]
        rw [read_ea_byte_stopped h2, compute_ea_stopped h1]
  case Word =>
    cases h1 : c.compute_ea ea 2 bus with
    | error e => rw [h1] at h; simp at h
    | ok p =>
      obtain ⟨cea, c1⟩ := p
      simp only [h1] at h
      cases h2 : c1.read_ea_word cea bus with
      | error e => rw [h2] at h; simp at h
      | ok q =>
        obtain ⟨lhs, c2⟩ := q
        simp only [h2, Cpu.fetch_word] at h
        rw [write_ea_word_stopped h]
        simp only [set_flag_is_stopped]
        rw [read_ea_word_stopped h2, compute_ea_stopped h1]
  case Long =>
    cases h1 : c.compute_ea ea 4 bus with
    | error e => rw [h1] at h; simp at h
    | ok p =>
      obtain ⟨cea, c1⟩ := p
      simp only [h1] at h
      cases h2 : c1.read_ea_long cea bus with
      | error e => rw [h2] at h; simp at h
      | ok q =>
        obtain ⟨lhs, c2⟩ := q
        simp only [h2, Cpu.fetch_long] at h
        rw [write_ea_long_stopped h]
        simp only [set_flag_is_stopped]
        rw [read_ea_long_stopped h2, compute_ea_stopped h1]

theorem exec_cmpi_stopped {c : Cpu} {size : Size} {ea : EffectiveAddress} {bus : Bus}
    {c' : Cpu} {bus' : Bus}
    (h : exec_cmpi c size ea bus = .ok (c', bus')) : c'.is_stopped = c.is_stopped := by
  unfold exec_cmpi at h
  cases size
  case Byte =>
    cases h1 : c.compute_ea ea 1 bus with
    | error e => rw [h1] at h; simp at h
    | ok p =>
      obtain ⟨cea, c1⟩ := p
      simp only [h1] at h
      cases h2 : c1.read_ea_byte cea bus with
      | error e => rw [h2] at h; simp at h
      | ok q =>
        obtain ⟨lhs, c2⟩ := q
        simp only [h2, Cpu.fetch_word, Except.ok.injEq, Prod.mk.injEq] at h
        obtain ⟨h3, -⟩ := h
        subst h3
        simp only [set_flag_is_stopped]
        rw [read_ea_byte_stopped h2, compute_ea_stopped h1]
  case Word =>
    cases h1 : c.compute_ea ea 2 bus with
    | error e => rw [h1] at h; simp at h
    | ok p =>
      obtain ⟨cea, c1⟩ := p
      simp only [h1] at h
      cases h2 : c1.read_ea_word cea bus with
      | error e => rw [h2] at h; simp at h
      | ok q =>
        obtain ⟨lhs, c2⟩ := q
        simp only [h2, Cpu.fetch_word, Except.ok.injEq, Prod.mk.injEq] at h
        obtain ⟨h3, -⟩ := h
        subst h3
        simp only [set_flag_is_stopped]
        rw [read_ea_word_stopped h2, compute_ea_stopped h1]
  case Long =>
    cases h1 : c.compute_ea ea 4 bus with
    | error e => rw [h1] at h; simp at h
    | ok p =>
      obtain ⟨cea, c1⟩ := p
      simp only [h1] at h
      cases h2 : c1.read_ea_long cea bus with
      | error e => rw [h2] at h; simp at h
      | ok q =>
        obtain ⟨lhs, c2⟩ := q
        simp only [h2, Cpu.fetch_long, Except.ok.injEq, Prod.mk.injEq] at h
        obtain ⟨h3, -⟩ := h
        subst h3
        simp only [set_flag_is_stopped]
        rw [read_ea_long_stopped h2, compute_ea_stopped h1]

theorem exec_btst_stopped {c : Cpu} {register : Option Nat} {ea : EffectiveAddress} {bus : Bus}
    {c' : Cpu} {bus' : Bus}
    (h : exec_btst c register ea bus = .ok (c', bus')) : c'.is_stopped = c.is_stopped := by
  unfold exec_btst at h
  cases h1 : c.compute_ea ea 1 bus with
  | error e => rw [h1] at h; simp at h
  | ok p =>
    obtain ⟨cea, c1⟩ := p
    simp only [h1] at h
    cases h2 : bit_operand c1 cea bus with
    | error e => rw [h2] at h; simp at h
    | ok q =>
      obtain ⟨⟨value, mask⟩, c2⟩ := q
      simp only [h2] at h
      cases h3 : bit_number c2 register mask bus with
      | error e => rw [h3] at h; simp at h
      | ok w =>
        obtain ⟨bit, c3⟩ := w
        simp only [h3, Except.ok.injEq, Prod.mk.injEq] at h
        obtain ⟨h4, -⟩ := h
        subst h4
        simp only [set_flag_is_stopped]
        rw [bit_number_stopped h3, bit_operand_stopped h2, compute_ea_stopped h1]

theorem exec_bchg_stopped {c : Cpu} {register : Option Nat} {ea : EffectiveAddress} {bus : Bus}
    {c' : Cpu} {bus' : Bus}
    (h : exec_bchg c register ea bus = .ok (c', bus')) : c'.is_stopped = c.is_stopped := by
  unfold exec_bchg at h
  cases h1 : c.compute_ea ea 1 bus with
  | error e => rw [h1] at h; simp at h
  | ok p =>
    obtain ⟨cea, c1⟩ := p
    simp only [h1] at h
    cases h2 : bit_operand c1 cea bus with
    | error e => rw [h2] at h; simp at h
    | ok q =>
      obtain ⟨⟨value, mask⟩, c2⟩ := q
      simp only [h2] at h
      cases h3 : bit_number c2 register mask bus with
      | error e => rw [h3] at h; simp at h
      | ok w =>
        obtain ⟨bit, c3⟩ := w
        simp only [h3] at h
        cases cea <;>
          first
            | (rw [write_ea_long_stopped h]
               simp only [set_flag_is_stopped]
               rw [bit_number_stopped h3, bit_operand_stopped h2, compute_ea_stopped h1])
            | (rw [write_ea_byte_stopped h]
               simp only [set_flag_is_stopped]
               rw [bit_number_stopped h3, bit_operand_stopped h2, compute_ea_stopped h1])

theorem exec_bclr_stopped {c : Cpu} {register : Option Nat} {ea : EffectiveAddress} {bus : Bus}
    {c' : Cpu} {bus' : Bus}
    (h : exec_bclr c register ea bus = .ok (c', bus')) : c'.is_stopped = c.is_stopped := by
  unfold exec_bclr at h
  cases h1 : c.compute_ea ea 1 bus with
  | error e => rw [h1] at h; simp at h
  | ok p =>
    obtain ⟨cea, c1⟩ := p
    simp only [h1] at h
    cases h2 : bit_operand c1 cea bus with
    | error e => rw [h2] at h; simp at h
    | ok q =>
      obtain ⟨⟨value, mask⟩, c2⟩ := q
      simp only [h2] at h
      cases h3 : bit_number c2 register mask bus with
      | error e => rw [h3] at h; simp at h
      | ok w =>
        obtain ⟨bit, c3⟩ := w
        simp only [h3] at h
        cases cea <;>
          first
            | (rw [write_ea_long_stopped h]
               simp only [set_flag_is_stopped]
               rw [bit_number_stopped h3, bit_operand_stopped h2, compute_ea_stopped h1])
            | (rw [write_ea_byte_stopped h]
               simp only [set_flag_is_stopped]
               rw [bit_number_stopped h3, bit_operand_stopped h2, compute_ea_stopped h1])

theorem exec_bset_stopped {c : Cpu} {register : Option Nat} {ea : EffectiveAddress} {bus : Bus}
    {c' : Cpu} {bus' : Bus}
    (h : exec_bset c register ea bus = .ok (c', bus')) : c'.is_stopped = c.is_stopped := by
  unfold exec_bset at h
  cases h1 : c.compute_ea ea 1 bus with
  | error e => rw [h1] at h; simp at h
  | ok p =>
    obtain ⟨cea, c1⟩ := p
    simp only [h1] at h
    cases h2 : bit_operand c1 cea bus with
    | error e => rw [h2] at h; simp at h
    | ok q =>
      obtain ⟨⟨value, mask⟩, c2⟩ := q
      simp only [h2] at h
      cases h3 : bit_number c2 register mask bus with
      | error e => rw [h3] at h; simp at h
      | ok w =>
        obtain ⟨bit, c3⟩ := w
        simp only [h3] at h
        cases cea <;>
          first
            | (rw [write_ea_long_stopped h]
               simp only [set_flag_is_stopped]
               rw [bit_number_stopped h3, bit_operand_stopped h2, compute_ea_stopped h1])
            | (rw [write_ea_byte_stopped h]
               simp only [set_flag_is_stopped]
               rw [bit_number_stopped h3, bit_operand_stopped h2, compute_ea_stopped h1])

theorem exec_movea_stopped {c : Cpu} {size : Size} {ea : EffectiveAddress} {register : Nat}
    {bus : Bus} {c' : Cpu} {bus' : Bus}
    (h : exec_movea c size ea register bus = .ok (c', bus')) : c'.is_stopped = c.is_stopped := by
  unfold exec_movea at h
  cases size
  case Byte => simp at h
  case Word =>
    cases h1 : c.compute_ea ea 2 bus with
    | error e => rw [h1] at h; simp at h
    | ok p =>
      obtain ⟨cea, c1⟩ := p
      simp only [h1] at h
      cases h2 : c1.read_ea_word cea bus with
      | error e => rw [h2] at h; simp at h
      | ok q =>
        obtain ⟨value, c2⟩ := q
        simp only [h2] at h
        (repeat' split at h) <;>
          first
            | (simp only [Except.ok.injEq, Prod.mk.injEq] at h
               obtain ⟨h3, -⟩ := h
               subst h3
               show c2.is_stopped = c.is_stopped
               rw [read_ea_word_stopped h2, compute_ea_stopped h1])
            | simp_all
  case Long =>
    cases h1 : c.compute_ea ea 4 bus with
    | error e => rw [h1] at h; simp at h
    | ok p =>
      obtain ⟨cea, c1⟩ := p
      simp only [h1] at h
      cases h2 : c1.read_ea_long cea bus with
      | error e => rw [h2] at h; simp at h
      | ok q =>
        obtain ⟨value, c2⟩ := q
        simp only [h2] at h
        (repeat' split at h) <;>
          first
            | (simp only [Except.ok.injEq, Prod.mk.injEq] at h
               obtain ⟨h3, -⟩ := h
               subst h3
               show c2.is_stopped = c.is_stopped
               rw [read_ea_long_stopped h2, compute_ea_stopped h1])
            | simp_all

theorem exec_move_stopped {c : Cpu} {size : Size} {src dst : EffectiveAddress} {bus : Bus}
    {c' : Cpu} {bus' : Bus}
    (h : exec_move c size src dst bus = .ok (c', bus')) : c'.is_stopped = c.is_stopped := by
  unfold exec_move at h
  cases size
  case Byte =>
    cases h1 : c.compute_ea src 1 bus with
    | error e => rw [h1] at h; simp at h
    | ok p =>
      obtain ⟨scea, c1⟩ := p
      simp only [h1] at h
      cases h2 : c1.read_ea_byte scea bus with
      | error e => rw [h2] at h; simp at h
      | ok q =>
        obtain ⟨value, c2⟩ := q
        simp only [h2] at h
        (repeat' split at h) <;>
          first
            | (rename_i dcea c3 heq
               rw [write_ea_byte_stopped h, compute_ea_stopped heq]
               simp only [set_flag_is_stopped]
               rw [read_ea_byte_stopped h2, compute_ea_stopped h1])
            | simp_all
  case Word =>
    cases h1 : c.compute_ea src 2 bus with
    | error e => rw [h1] at h; simp at h
    | ok p =>
      obtain ⟨scea, c1⟩ := p
      simp only [h1] at h
      cases h2 : c1.read_ea_word scea bus with
      | error e => rw [h2] at h; simp at h
      | ok q =>
        obtain ⟨value, c2⟩ := q
        simp only [h2] at h
        (repeat' split at h) <;>
          first
            | (rename_i dcea c3 heq
               rw [write_ea_word_stopped h, compute_ea_stopped heq]
               simp only [set_flag_is_stopped]
               rw [read_ea_word_stopped h2, compute_ea_stopped h1])
            | simp_all
  case Long =>
    cases h1 : c.compute_ea src 4 bus with
    | error e => rw [h1] at h; simp at h
    | ok p =>
      obtain ⟨scea, c1⟩ := p
      simp only [h1] at h
      cases h2 : c1.read_ea_long scea bus with
      | error e => rw [h2] at h; simp at h
      | ok q =>
        obtain ⟨value, c2⟩ := q
        simp only [h2] at h
        (repeat' split at h) <;>
          first
            | (rename_i dcea c3 heq
               rw [write_ea_long_stopped h, compute_ea_stopped heq]
               simp only [set_flag_is_stopped]
               rw [read_ea_long_stopped h2, compute_ea_stopped h1])
            | simp_all

theorem exec_move_from_sr_stopped {c : Cpu} {ea : EffectiveAddress} {bus : Bus}
    {c' : Cpu} {bus' : Bus}
    (h : exec_move_from_sr c ea bus = .ok (c', bus')) : c'.is_stopped = c.is_stopped := by
  unfold exec_move_from_sr at h
  cases h0 : c.assert_supervisor with
  | error e => rw [h0] at h; simp at h
  | ok u =>
    simp only [h0] at h
    cases h1 : c.compute_ea ea 2 bus with
    | error e => rw [h1] at h; simp at h
    | ok p =>
      obtain ⟨cea, c1⟩ := p
      simp only [h1] at h
      rw [write_ea_word_stopped h, compute_ea_stopped h1]

theorem exec_move_to_ccr_stopped {c : Cpu} {ea : EffectiveAddress} {bus : Bus}
    {c' : Cpu} {bus' : Bus}
    (h : exec_move_to_ccr c ea bus = .ok (c', bus')) : c'.is_stopped = c.is_stopped := by
  unfold exec_move_to_ccr at h
  cases h1 : c.compute_ea ea 1 bus with
  | error e => rw [h1] at h; simp at h
  | ok p =>
    obtain ⟨cea, c1⟩ := p
    simp only [h1] at h
    cases h2 : c1.read_ea_byte cea bus with
    | error e => rw [h2] at h; simp at h
    | ok q =>
      obtain ⟨value, c2⟩ := q
      simp only [h2, Except.ok.injEq, Prod.mk.injEq] at h
      obtain ⟨h3, -⟩ := h
      subst h3
      show c2.is_stopped = c.is_stopped
      rw [read_ea_byte_stopped h2, compute_ea_stopped h1]

theorem exec_move_to_sr_stopped {c : Cpu} {ea : EffectiveAddress} {bus : Bus}
    {c' : Cpu} {bus' : Bus}
    (h : exec_move_to_sr c ea bus = .ok (c', bus')) : c'.is_stopped = c.is_stopped := by
  unfold exec_move_to_sr at h
  cases h0 : c.assert_supervisor with
  | error e => rw [h0] at h; simp at h
  | ok u =>
    simp only [h0] at h
    cases h1 : c.compute_ea ea 2 bus with
    | error e => rw [h1] at h; simp at h
    | ok p =>
      obtain ⟨cea, c1⟩ := p
      simp only [h1] at h
      cases h2 : c1.read_ea_word cea bus with
      | error e => rw [h2] at h; simp at h
      | ok q =>
        obtain ⟨value, c2⟩ := q
        simp only [h2, Except.ok.injEq, Prod.mk.injEq] at h
        obtain ⟨h3, -⟩ := h
        subst h3
        show c2.is_stopped = c.is_stopped
        rw [read_ea_word_stopped h2, compute_ea_stopped h1]

theorem exec_negx_stopped {c : Cpu} {size : Size} {ea : EffectiveAddress} {bus : Bus}
    {c' : Cpu} {bus' : Bus}
    (h : exec_negx c size ea bus = .ok (c', bus')) : c'.is_stopped = c.is_stopped := by
  unfold exec_negx at h
  cases size
  case Byte =>
    cases h1 : c.compute_ea ea 1 bus with
    | error e => rw [h1] at h; simp at h
    | ok p =>
      obtain ⟨cea, c1⟩ := p
      simp only [h1] at h
      cases h2 : c1.read_ea_byte cea bus with
      | error e => rw [h2] at h; simp at h
      | ok q =>
        obtain ⟨value, c2⟩ := q
        simp only [h2] at h
        rw [write_ea_byte_stopped h]
        simp only [set_flag_is_stopped]
        rw [read_ea_byte_stopped h2, compute_ea_stopped h1]
  case Word =>
    cases h1 : c.compute_ea ea 1 bus with
    | error e => rw [h1] at h; simp at h
    | ok p =>
      obtain ⟨cea, c1⟩ := p
      simp only [h1] at h
      cases h2 : c1.read_ea_word cea bus with
      | error e => rw [h2] at h; simp at h
      | ok q =>
        obtain ⟨value, c2⟩ := q
        simp only [h2] at h
        rw [write_ea_word_stopped h]
        simp only [set_flag_is_stopped]
        rw [read_ea_word_stopped h2, compute_ea_stopped h1]
  case Long =>
    cases h1 : c.compute_ea ea 1 bus with
    | error e => rw [h1] at h; simp at h
    | ok p =>
      obtain ⟨cea, c1⟩ := p
      simp only [h1] at h
      cases h2 : c1.read_ea_long cea bus with
      | error e => rw [h2] at h; simp at h
      | ok q =>
        obtain ⟨value, c2⟩ := q
        simp only [h2] at h
        rw [write_ea_long_stopped h]
        simp only [set_flag_is_stopped]
        rw [read_ea_long_stopped h2, compute_ea_stopped h1]

theorem exec_clr_stopped {c : Cpu} {size : Size} {ea : EffectiveAddress} {bus : Bus}
    {c' : Cpu} {bus' : Bus}
    (h : exec_clr c size ea bus = .ok (c', bus')) : c'.is_stopped = c.is_stopped := by
  unfold exec_clr at h
  cases size
  case Byte =>
    cases h1 : c.compute_ea ea 1 bus with
    | error e => rw [h1] at h; simp at h
    | ok p =>
      obtain ⟨cea, c1⟩ := p
      simp only [h1] at h
      rw [write_ea_byte_stopped h]
      simp only [set_flag_is_stopped]
      rw [compute_ea_stopped h1]
  case Word =>
    cases h1 : c.compute_ea ea 2 bus with
    | error e => rw [h1] at h; simp at h
    | ok p =>
      obtain ⟨cea, c1⟩ := p
      simp only [h1] at h
      rw [write_ea_word_stopped h]
      simp only [set_flag_is_stopped]
      rw [compute_ea_stopped h1]
  case Long =>
    cases h1 : c.compute_ea ea 4 bus with
    | error e => rw [h1] at h; simp at h
    | ok p =>
      obtain ⟨cea, c1⟩ := p
      simp only [h1] at h
      rw [write_ea_long_stopped h]
      simp only [set_flag_is_stopped]
      rw [compute_ea_stopped h1]

theorem exec_neg_stopped {c : Cpu} {size : Size} {ea : EffectiveAddress} {bus : Bus}
    {c' : Cpu} {bus' : Bus}
    (h : exec_neg c size ea bus = .ok (c', bus')) : c'.is_stopped = c.is_stopped := by
  unfold exec_neg at h
  cases size
  case Byte =>
    cases h1 : c.compute_ea ea 1 bus with
    | error e => rw [h1] at h; simp at h
    | ok p =>
      obtain ⟨cea, c1⟩ := p
      simp only [h1] at h
      cases h2 : c1.read_ea_byte cea bus with
      | error e => rw [h2] at h; simp at h
      | ok q =>
        obtain ⟨value, c2⟩ := q
        simp only [h2] at h
        rw [write_ea_byte_stopped h]
        simp only [set_flag_is_stopped]
        rw [read_ea_byte_stopped h2, compute_ea_stopped h1]
  case Word =>
    cases h1 : c.compute_ea ea 1 bus with
    | error e => rw [h1] at h; simp at h
    | ok p =>
      obtain ⟨cea, c1⟩ := p
      simp only [h1] at h
      cases h2 : c1.read_ea_word cea bus with
      | error e => rw [h2] at h; simp at h
      | ok q =>
        obtain ⟨value, c2⟩ := q
        simp only [h2] at h
        rw [write_ea_word_stopped h]
        simp only [set_flag_is_stopped]
        rw [read_ea_word_stopped h2, compute_ea_stopped h1]
  case Long =>
    cases h1 : c.compute_ea ea 1 bus with
    | error e => rw [h1] at h; simp at h
    | ok p =>
      obtain ⟨cea, c1⟩ := p
      simp only [h1] at h
      cases h2 : c1.read_ea_long cea bus with
      | error e => rw [h2] at h; simp at h
      | ok q =>
        obtain ⟨value, c2⟩ := q
        simp only [h2] at h
        rw [write_ea_long_stopped h]
        simp only [set_flag_is_stopped]
        rw [read_ea_long_stopped h2, compute_ea_stopped h1]

theorem exec_not_stopped {c : Cpu} {size : Size} {ea : EffectiveAddress} {bus : Bus}
    {c' : Cpu} {bus' : Bus}
    (h : exec_not c size ea bus = .ok (c', bus')) : c'.is_stopped = c.is_stopped := by
  unfold exec_not at h
  cases size
  case Byte =>
    cases h1 : c.compute_ea ea 1 bus with
    | error e => rw [h1] at h; simp at h
    | ok p =>
      obtain ⟨cea, c1⟩ := p
      simp only [h1] at h
      cases h2 : c1.read_ea_byte cea bus with
      | error e => rw [h2] at h; simp at h
      | ok q =>
        obtain ⟨value, c2⟩ := q
        simp only [h2] at h
        rw [write_ea_byte_stopped h]
        simp only [set_flag_is_stopped]
        rw [read_ea_byte_stopped h2, compute_ea_stopped h1]
  case Word =>
    cases h1 : c.compute_ea ea 2 bus with
    | error e => rw [h1] at h; simp at h
    | ok p =>
      obtain ⟨cea, c1⟩ := p
      simp only [h1] at h
      cases h2 : c1.read_ea_word cea bus with
      | error e => rw [h2] at h; simp at h
      | ok q =>
        obtain ⟨value, c2⟩ := q
        simp only [h2] at h
        rw [write_ea_word_stopped h]
        simp only [set_flag_is_stopped]
        rw [read_ea_word_stopped h2, compute_ea_stopped h1]
  case Long =>
    cases h1 : c.compute_ea ea 4 bus with
    | error e => rw [h1] at h; simp at h
    | ok p =>
      obtain ⟨cea, c1⟩ := p
      simp only [h1] at h
      cases h2 : c1.read_ea_long cea bus with
      | error e => rw [h2] at h; simp at h
      | ok q =>
        obtain ⟨value, c2⟩ := q
        simp only [h2] at h
        rw [write_ea_long_stopped h]
        simp only [set_flag_is_stopped]
        rw [read_ea_long_stopped h2, compute_ea_stopped h1]

theorem exec_ext_stopped {c : Cpu} {size : Size} {register : Nat} {bus : Bus}
    {c' : Cpu} {bus' : Bus}
    (h : exec_ext c size register bus = .ok (c', bus')) : c'.is_stopped = c.is_stopped := by
  unfold exec_ext at h
  cases size
  case Byte => simp at h
  case Word =>
    cases h1 : c.data[register]? with
    | none => rw [h1] at h; simp at h
    | some d =>
      simp only [h1, set_flag_data, Except.ok.injEq, Prod.mk.injEq] at h
      obtain ⟨h2, -⟩ := h
      subst h2
      simp
  case Long =>
    cases h1 : c.data[register]? with
    | none => rw [h1] at h; simp at h
    | some d =>
      simp only [h1, Except.ok.injEq, Prod.mk.injEq] at h
      obtain ⟨h2, -⟩ := h
      subst h2
      simp

theorem exec_swap_stopped {c : Cpu} {register : Nat} {bus : Bus} {c' : Cpu} {bus' : Bus}
    (h : exec_swap c register bus = .ok (c', bus')) : c'.is_stopped = c.is_stopped := by
  unfold exec_swap at h
  (repeat' split at h) <;>
    first
      | (simp only [Except.ok.injEq, Prod.mk.injEq] at h
         obtain ⟨h2, -⟩ := h
         subst h2
         simp)
      | simp_all

theorem exec_pea_stopped {c : Cpu} {ea : EffectiveAddress} {bus : Bus} {c' : Cpu} {bus' : Bus}
    (h : exec_pea c ea bus = .ok (c', bus')) : c'.is_stopped = c.is_stopped := by
  unfold exec_pea at h
  cases h1 : c.compute_ea ea 4 bus with
  | error e => rw [h1] at h; simp at h
  | ok p =>
    obtain ⟨cea, c1⟩ := p
    simp only [h1] at h
    cases h2 : c1.read_ea_long cea bus with
    | error e => rw [h2] at h; simp at h
    | ok q =>
      obtain ⟨value, c2⟩ := q
      simp only [h2] at h
      rw [push_long_stopped h, read_ea_long_stopped h2, compute_ea_stopped h1]

theorem exec_tas_stopped {c : Cpu} {ea : EffectiveAddress} {bus : Bus} {c' : Cpu} {bus' : Bus}
    (h : exec_tas c ea bus = .ok (c', bus')) : c'.is_stopped = c.is_stopped := by
  unfold exec_tas at h
  cases h1 : c.compute_ea ea 1 bus with
  | error e => rw [h1] at h; simp at h
  | ok p =>
    obtain ⟨cea, c1⟩ := p
    simp only [h1] at h
    cases h2 : c1.read_ea_byte cea bus with
    | error e => rw [h2] at h; simp at h
    | ok q =>
      obtain ⟨value, c2⟩ := q
      simp only [h2] at h
      rw [write_ea_byte_stopped h]
      simp only [set_flag_is_stopped]
      rw [read_ea_byte_stopped h2, compute_ea_stopped h1]

theorem exec_moveq_stopped {c : Cpu} {data register : Nat} {bus : Bus} {c' : Cpu} {bus' : Bus}
    (h : exec_moveq c data register bus = .ok (c', bus')) : c'.is_stopped = c.is_stopped := by
  unfold exec_moveq at h
  (repeat' split at h) <;>
    first
      | (simp only [Except.ok.injEq, Prod.mk.injEq] at h
         obtain ⟨h2, -⟩ := h
         subst h2
         simp)
      | simp_all

/-- No successfully executed instruction modifies the stopped flag. -/
theorem decode_execute_stopped {c : Cpu} {bus : Bus} {c' : Cpu} {bus' : Bus}
    (h : c.decode_execute bus = .ok (c', bus')) : c'.is_stopped = c.is_stopped := by
  unfold Cpu.decode_execute at h
  simp only [Cpu.fetch_word] at h
  cases hd : decode_entry .MC68000 (bus.read16 c.pc)
  case OriToCcr =>
    rw [hd] at h
    dsimp only at h
    exact (exec_ori_to_ccr_stopped h).trans rfl
  case OriToSr =>
    rw [hd] at h
    dsimp only at h
    exact (exec_ori_to_sr_stopped h).trans rfl
  case Ori size ea =>
    rw [hd] at h
    dsimp only at h
    exact (exec_ori_stopped h).trans rfl
  case AndiToCcr =>
    rw [hd] at h
    dsimp only at h
    exact (exec_andi_to_ccr_stopped h).trans rfl
  case AndiToSr =>
    rw [hd] at h
    dsimp only at h
    exact (exec_andi_to_sr_stopped h).trans rfl
  case Andi size ea =>
    rw [hd] at h
    dsimp only at h
    exact (exec_andi_stopped h).trans rfl
  case Subi size ea =>
    rw [hd] at h
    dsimp only at h
    exact (exec_subi_stopped h).trans rfl
  case Addi size ea =>
    rw [hd] at h
    dsimp only at h
    exact (exec_addi_stopped h).trans rfl
  case EoriToCcr =>
    rw [hd] at h
    dsimp only at h
    exact (exec_eori_to_ccr_stopped h).trans rfl
  case EoriToSr =>
    rw [hd] at h
    dsimp only at h
    exact (exec_eori_to_sr_stopped h).trans rfl
  case Eori size ea =>
    rw [hd] at h
    dsimp only at h
    exact (exec_eori_stopped h).trans rfl
  case Cmpi size ea =>
    rw [hd] at h
    dsimp only at h
    exact (exec_cmpi_stopped h).trans rfl
  case Btst register ea =>
    rw [hd] at h
    dsimp only at h
    exact (exec_btst_stopped h).trans rfl
  case Bchg register ea =>
    rw [hd] at h
    dsimp only at h
    exact (exec_bchg_stopped h).trans rfl
  case Bclr register ea =>
    rw [hd] at h
    dsimp only at h
    exact (exec_bclr_stopped h).trans rfl
  case Bset register ea =>
    rw [hd] at h
    dsimp only at h
    exact (exec_bset_stopped h).trans rfl
  case Movea size ea register =>
    rw [hd] at h
    dsimp only at h
    exact (exec_movea_stopped h).trans rfl
  case Move size src dst =>
    rw [hd] at h
    dsimp only at h
    exact (exec_move_stopped h).trans rfl
  case MoveFromSr ea =>
    rw [hd] at h
    dsimp only at h
    exact (exec_move_from_sr_stopped h).trans rfl
  case MoveToCcr ea =>
    rw [hd] at h
    dsimp only at h
    exact (exec_move_to_ccr_stopped h).trans rfl
  case MoveToSr ea =>
    rw [hd] at h
    dsimp only at h
    exact (exec_move_to_sr_stopped h).trans rfl
  case Negx size ea =>
    rw [hd] at h
    dsimp only at h
    exact (exec_negx_stopped h).trans rfl
  case Clr size ea =>
    rw [hd] at h
    dsimp only at h
    exact (exec_clr_stopped h).trans rfl
  case Neg size ea =>
    rw [hd] at h
    dsimp only at h
    exact (exec_neg_stopped h).trans rfl
  case Not size ea =>
    rw [hd] at h
    dsimp only at h
    exact (exec_not_stopped h).trans rfl
  case Ext size register =>
    rw [hd] at h
    dsimp only at h
    exact (exec_ext_stopped h).trans rfl
  case Swap register =>
    rw [hd] at h
    dsimp only at h
    exact (exec_swap_stopped h).trans rfl
  case Pea ea =>
    rw [hd] at h
    dsimp only at h
    exact (exec_pea_stopped h).trans rfl
  case Tas ea =>
    rw [hd] at h
    dsimp only at h
    exact (exec_tas_stopped h).trans rfl
  case Moveq data register =>
    rw [hd] at h
    dsimp only at h
    exact (exec_moveq_stopped h).trans rfl
  case Movep size target dreg areg =>
    rw [hd] at h
    dsimp only at h
    exact Except.noConfusion h
  case Nbcd ea =>
    rw [hd] at h
    dsimp only at h
    exact Except.noConfusion h
  case Illegal =>
    rw [hd] at h
    dsimp only at h
    exact Except.noConfusion h
  case Tst size ea =>
    rw [hd] at h
    dsimp only at h
    exact Except.noConfusion h
  case Trap vector =>
    rw [hd] at h
    dsimp only at h
    exact Except.noConfusion h
  case Link register =>
    rw [hd] at h
    dsimp only at h
    exact Except.noConfusion h
  case Unlk register =>
    rw [hd] at h
    dsimp only at h
    exact Except.noConfusion h
  case MoveUsp target register =>
    rw [hd] at h
    dsimp only at h
    exact Except.noConfusion h
  case Reset =>
    rw [hd] at h
    dsimp only at h
    exact Except.noConfusion h
  case Nop =>
    rw [hd] at h
    dsimp only at h
    exact Except.noConfusion h
  case Stop =>
    rw [hd] at h
    dsimp only at h
    exact Except.noConfusion h
  case Rte =>
    rw [hd] at h
    dsimp only at h
    exact Except.noConfusion h
  case Rts =>
    rw [hd] at h
    dsimp only at h
    exact Except.noConfusion h
  case Trapv =>
    rw [hd] at h
    dsimp only at h
    exact Except.noConfusion h
  case Rtr =>
    rw [hd] at h
    dsimp only at h
    exact Except.noConfusion h
  case Jsr ea =>
    rw [hd] at h
    dsimp only at h
    exact Except.noConfusion h
  case Jmp ea =>
    rw [hd] at h
    dsimp only at h
    exact Except.noConfusion h
  case Movem size target ea =>
    rw [hd] at h
    dsimp only at h
    exact Except.noConfusion h
  case Lea ea register =>
    rw [hd] at h
    dsimp only at h
    exact Except.noConfusion h
  case Chk ea register =>
    rw [hd] at h
    dsimp only at h
    exact Except.noConfusion h
  case Addq size data ea =>
    rw [hd] at h
    dsimp only at h
    exact Except.noConfusion h
  case Subq size data ea =>
    rw [hd] at h
    dsimp only at h
    exact Except.noConfusion h
  case Scc condition ea =>
    rw [hd] at h
    dsimp only at h
    exact Except.noConfusion h
  case Dbcc condition register =>
    rw [hd] at h
    dsimp only at h
    exact Except.noConfusion h
  case Bra displacement =>
    rw [hd] at h
    dsimp only at h
    exact Except.noConfusion h
  case Bsr displacement =>
    rw [hd] at h
    dsimp only at h
    exact Except.noConfusion h
  case Bcc condition displacement =>
    rw [hd] at h
    dsimp only at h
    exact Except.noConfusion h
  case Divu ea register =>
    rw [hd] at h
    dsimp only at h
    exact Except.noConfusion h
  case Divs ea register =>
    rw [hd] at h
    dsimp only at h
    exact Except.noConfusion h

/-- Every reachable CPU state has a cleared stopped flag: construction
starts with `false`, `reset` leaves the field untouched, and no executed
instruction writes it. -/
theorem reachable_is_stopped_false (c : Cpu) (hr : Reachable c) : c.is_stopped = false := by
  induction hr with
  | new => rfl
  | reset c bus _ ih => exact ih
  | step c bus c' bus' _ hstep ih => rw [decode_execute_stopped hstep]; exact ih

/-! Debug attachment, from `src/bin/sys68k/gdb/mod.rs`. -/

/-- `SystemTarget::read_addrs` as implemented: the loop runs `i` from
`start_addr` up to `data.len()` (exclusive), storing the bus byte at
address `i` into `data[i]`.  Bus errors are out of scope of the total bus
model. -/
def read_addrs (start_addr : Nat) (data : List Nat) (bus : Bus) : List Nat :=
  data.mapIdx (fun i d => if start_addr ≤ i then bus.read8 i else d)

/-- `SystemTarget::write_addrs` as implemented: the loop runs `i` from
`start_addr` up to `data.len()` (exclusive), writing `data[i]` to bus
address `i`. -/
def write_addrs (start_addr : Nat) (data : List Nat) (bus : Bus) : Bus :=
  (List.range data.length).foldl
    (fun b i => if start_addr ≤ i then b.write8 i (data.getD i 0) else b) bus

/-- Modelled from the spec: the behavior §9 assigns to the memory-read
handler, iterating `0..data.len()` and reading `start_addr + i` into
`data[i]`. -/
def read_addrs_spec (start_addr : Nat) (data : List Nat) (bus : Bus) : List Nat :=
  (List.range data.length).map (fun i => bus.read8 (start_addr + i))

/-- Modelled from the spec: the behavior §9 assigns to the memory-write
handler, iterating `0..data.len()` and writing `data[i]` to
`start_addr + i`. -/
def write_addrs_spec (start_addr : Nat) (data : List Nat) (bus : Bus) : Bus :=
  (List.range data.length).foldl
    (fun b i => b.write8 (start_addr + i) (data.getD i 0)) bus

/-- `SwBreakpoint::add_sw_breakpoint`: `HashSet::insert` returns whether the
address was newly inserted. -/
def add_sw_breakpoint (breakpoints : Finset Nat) (addr : Nat) : Finset Nat × Bool :=
  (insert addr breakpoints, decide (addr ∉ breakpoints))

/-- `SwBreakpoint::remove_sw_breakpoint`: `HashSet::remove` returns whether
the address was previously present. -/
def remove_sw_breakpoint (breakpoints : Finset Nat) (addr : Nat) : Finset Nat × Bool :=
  (breakpoints.erase addr, decide (addr ∈ breakpoints))

/-! Concrete scenario fixtures.  Each bus carries the test ROM header of
`cpu/tests.rs` (initial SSP 0x00001000 at address 0, initial PC 0x00000400
at address 4) and one instruction at 0x400. -/

/-- Memory with CMPI.B #$01,D0 (bytes `0C 00 00 01`) at 0x400. -/
def cmpi_bus : Bus := fun a =>
  if a = 2 then 0x10
  else if a = 6 then 0x04
  else if a = 0x400 then 0x0C
  else if a = 0x403 then 0x01
  else 0

/-- Memory with PEA ($0400).W (bytes `48 78 04 00`) at 0x400. -/
def pea_bus : Bus := fun a =>
  if a = 2 then 0x10
  else if a = 6 then 0x04
  else if a = 0x400 then 0x48
  else if a = 0x401 then 0x78
  else if a = 0x402 then 0x04
  else 0

/-- Memory with MOVEA.W D0,A0 (bytes `30 40`) at 0x400. -/
def movea_bus : Bus := fun a =>
  if a = 2 then 0x10
  else if a = 6 then 0x04
  else if a = 0x400 then 0x30
  else if a = 0x401 then 0x40
  else 0

/-- Reset CPU for the MOVEA.W scenario with D0 = `d` and A0 = `a`. -/
def movea_cpu (d a : Nat) : Cpu :=
  { Cpu.new.reset movea_bus with
      data := [d, 0, 0, 0, 0, 0, 0, 0]
      addr := [a, 0, 0, 0, 0, 0, 0] }

/-- Memory with MOVE D0,SR (bytes `46 C0`) at 0x400. -/
def movetosr_bus : Bus := fun a =>
  if a = 2 then 0x10
  else if a = 6 then 0x04
  else if a = 0x400 then 0x46
  else if a = 0x401 then 0xC0
  else 0

/-- Reset CPU for the MOVE D0,SR scenario with D0 = 0xFFFF. -/
def movetosr_cpu : Cpu :=
  { Cpu.new.reset movetosr_bus with data := [0xFFFF, 0, 0, 0, 0, 0, 0, 0] }

/-! Claim theorems. -/

/-- C1: counterexample — the claim says any SR write stores `v &&& 0xA71F`,
but writing 0x4000 through `set_sr` stores 0x4000 while
`0x4000 &&& 0xA71F = 0`. -/
theorem C1_sr_mask_counterexample :
    (Cpu.new.set_sr 0x4000).sr ≠ 0x4000 &&& 0xA71F := by decide

set_option maxRecDepth 10000 in
/-- C1 (amended): `set_sr` stores exactly `v &&& 0xF71F` — the mask in the
code is 0xF71F, not 0xA71F, so bits 0x4000 and 0x1000 survive a write
while everything outside 0xF71F is dropped; end to end, executing
MOVE D0,SR with D0 = 0xFFFF stores SR = 0xF71F. -/
theorem C1_sr_write_mask (c : Cpu) (v : Nat) :
    (c.set_sr v).sr = v &&& 0xF71F ∧
    (step_result movetosr_cpu movetosr_bus).map (fun r => r.1.sr) = some 0xF71F :=
  ⟨rfl, by decide⟩

set_option maxRecDepth 10000 in
/-- C2: at the failing input CMPI.B #$01,D0 executed from reset (D0 = 0,
SR = 0x2700, so X and C both start clear) the implementation yields
SR = 0x271A: the Extend flag is set to the borrow and Overflow is set to
the same unsigned borrow, while Carry stays clear — where the claim
requires C = borrow = 1, X unchanged = 0, and V = signed overflow = 0.
The operand is correctly not written back (D0 stays 0). -/
theorem C2_cmpi_flags_at_failing_input :
    (step_result (Cpu.new.reset cmpi_bus) cmpi_bus).map
        (fun r => (r.1.sr, r.1.data, r.1.pc)) =
      some (0x271A, [0, 0, 0, 0, 0, 0, 0, 0], 0x404) ∧
    (Cpu.new.reset cmpi_bus).flag .Extend = false ∧
    0x271A &&& StatusFlag.Extend.mask ≠ 0 ∧
    0x271A &&& StatusFlag.Carry.mask = 0 ∧
    0x271A &&& StatusFlag.Overflow.mask ≠ 0 :=
  ⟨by decide, by decide, by decide, by decide, by decide⟩

set_option maxRecDepth 10000 in
/-- C3: counterexample — after PEA ($0400).W from reset (SSP = 0x1000) the
byte stored at 0x0FFC is 0x48 (the first byte of the long read at address
0x400, i.e. the instruction bytes themselves), not the 0x00 the claim
requires for a pushed effective address 0x00000400. -/
theorem C3_pea_counterexample :
    (step_result (Cpu.new.reset pea_bus) pea_bus).map (fun r => r.2 0xFFC) =
      some 0x48 ∧ (0x48 : Nat) ≠ 0x00 :=
  ⟨by decide, by decide⟩

set_option maxRecDepth 10000 in
/-- C3 (amended): Pea pre-decrements the active stack pointer by 4 and
pushes the 32-bit value read at the computed effective address (not the
address itself): from reset with SSP = 0x1000, PEA ($0400).W leaves
SSP = 0x0FFC and the bytes 0x48, 0x78, 0x04, 0x00 — the long stored at
0x400 — at 0x0FFC..0x0FFF. -/
theorem C3_pea_pushes_value_at_ea :
    (step_result (Cpu.new.reset pea_bus) pea_bus).map
      (fun r => (r.1.ssp, r.2 0xFFC, r.2 0xFFD, r.2 0xFFE, r.2 0xFFF)) =
    some (0xFFC, 0x48, 0x78, 0x04, 0x00) := by decide

set_option maxRecDepth 10000 in
/-- C4: counterexample — MOVEA.W D0,A0 with D0 = 0x12345678 and
A0 = 0xFFFF0000 leaves A0 = 0xFFFF5678 (the repository's own unit test
asserts this), not the 0x00005678 the claim requires. -/
theorem C4_movea_counterexample :
    (step_result (movea_cpu 0x12345678 0xFFFF0000) movea_bus).map
      (fun r => r.1.addr.getD 0 0) = some 0xFFFF5678 ∧
    (0xFFFF5678 : Nat) ≠ 0x00005678 :=
  ⟨by decide, by decide⟩

set_option maxRecDepth 10000 in
/-- C4 (amended): Movea.W merges the source word into the low 16 bits of
the destination address register and preserves the old high 16 bits (no
sign extension), and no condition flag changes: executing the Movea arm on
MOVEA.W D0,A0 with any initial D0 = `d` and A0 = `a` yields
A0 = (a &&& 0xFFFF0000) ||| (d % 65536) and an otherwise unchanged CPU
(in particular SR is untouched), and the full fetch/decode/execute step on
the claim's concrete scenario gives A0 = 0xFFFF5678 with SR still
0x2700. -/
theorem C4_movea_word_merges_low16 (d a : Nat) :
    exec_movea { movea_cpu d a with pc := 0x402 } .Word (.DataRegister 0) 0 movea_bus =
      .ok ({ movea_cpu d a with
               addr := [(a &&& 0xFFFF0000) ||| (d % 65536), 0, 0, 0, 0, 0, 0]
               pc := 0x402 }, movea_bus) ∧
    (step_result (movea_cpu 0x12345678 0xFFFF0000) movea_bus).map
        (fun r => (r.1.addr.getD 0 0, r.1.sr)) = some (0xFFFF5678, 0x2700) :=
  ⟨rfl, by decide⟩

/-- C5: effective-address resolution of `AddressWithDisplacement(7)`
indexes `addr[7]`, out of bounds of the 7-element address-register array —
a panic — in supervisor mode (after reset) and in user mode alike, instead
of routing through the active stack pointer; resolution is not total on
register-7 descriptors. -/
theorem C5_displacement_a7_crash :
    (Cpu.new.reset pea_bus).compute_ea (.AddressWithDisplacement 7) 2 pea_bus =
      .error .crash ∧
    Cpu.new.compute_ea (.AddressWithDisplacement 7) 2 pea_bus = .error .crash ∧
    (Cpu.new.reset pea_bus).flag .Supervisor = true ∧
    Cpu.new.flag .Supervisor = false :=
  ⟨rfl, rfl, by decide, by decide⟩

/-- C6: at start address 4 with a 2-byte buffer, the implemented read
handler transfers zero bytes (its loop runs over the empty range 4..2) and
the implemented write handler writes nothing, while the spec behavior
transfers two bytes at addresses 4 and 5. -/
theorem C6_read_write_addrs_failing_input :
    read_addrs 4 [0, 0] (fun a => a) = [0, 0] ∧
    read_addrs_spec 4 [0, 0] (fun a => a) = [4, 5] ∧
    read_addrs 4 [0, 0] (fun a => a) ≠ read_addrs_spec 4 [0, 0] (fun a => a) ∧
    write_addrs 4 [9, 9] (fun a => a) 4 = 4 ∧
    write_addrs_spec 4 [9, 9] (fun a => a) 4 = 9 :=
  ⟨by decide, by decide, by decide, by decide, by decide⟩

/-- C7: counterexample — `reset` does not clear the stopped flag: from a
state with the flag set, it is still set after reset, so "the stopped flag
is cleared" fails for that prior state. -/
theorem C7_reset_stopped_counterexample :
    ¬ (({ Cpu.new with is_stopped := true }.reset pea_bus).is_stopped = false) := by
  decide

/-- C7 (amended): for every bus and prior CPU state, reset loads the
supervisor stack pointer from the longword at 0, the PC from the longword
at 4, sets SR = 0x2700, and leaves the stopped flag exactly as it was
(it is false in every reachable state, but reset itself does not clear
it). -/
theorem C7_reset_behavior (c : Cpu) (bus : Bus) :
    (c.reset bus).ssp = bus.read32 0 ∧ (c.reset bus).pc = bus.read32 4 ∧
    (c.reset bus).sr = 0x2700 ∧ (c.reset bus).is_stopped = c.is_stopped :=
  ⟨rfl, rfl, rfl, rfl⟩

/-- C8: the decoder table is total and deterministic — it has exactly 65536
entries and entry `x` is the pure classification `decode_entry v x` of its
opcode, so every lookup returns a concrete `Instruction` and two lookups of
the same opcode and version agree — and opcode 0x4AFC decodes to
`Illegal`. -/
theorem C8_decoder_total (v : Version) :
    (init_table v).length = 65536 ∧
    (∀ x, x < 65536 → (init_table v)[x]? = some (decode_entry v x)) ∧
    decode v 0x4AFC = .Illegal ∧
    decode_entry v 0x4AFC = .Illegal := by
  have hget : ∀ x, x < 65536 → (init_table v)[x]? = some (decode_entry v x) := by
    intro x hx
    simp [init_table, List.getElem?_map, List.getElem?_range, hx]
  have h4afc : decode_entry v 0x4AFC = .Illegal := by cases v <;> rfl
  refine ⟨by simp [init_table], hget, ?_, h4afc⟩
  unfold decode
  rw [hget 0x4AFC (by decide)]
  simpa using h4afc

/-- C8 witness: the totality and 0x4AFC facts at concrete inputs. -/
theorem C8_decoder_total_witness :
    (init_table .MC68000).length = 65536 ∧
    (init_table .MC68000)[0x42]? = some (decode_entry .MC68000 0x42) ∧
    decode .MC68000 0x4AFC = .Illegal :=
  ⟨(C8_decoder_total .MC68000).1,
   (C8_decoder_total .MC68000).2.1 0x42 (by decide),
   (C8_decoder_total .MC68000).2.2.1⟩

/-- C9: breakpoint-set laws — adding a fresh address then removing it
restores the original set with the add reporting a new insertion and the
remove reporting presence; adding twice yields the same set as adding once
with the duplicate add returning false; remove returns whether the address
was present. -/
theorem C9_breakpoint_laws (S : Finset Nat) (a : Nat) :
    (a ∉ S →
      ((remove_sw_breakpoint (add_sw_breakpoint S a).1 a).1 = S ∧
       (add_sw_breakpoint S a).2 = true ∧
       (remove_sw_breakpoint (add_sw_breakpoint S a).1 a).2 = true)) ∧
    (add_sw_breakpoint (add_sw_breakpoint S a).1 a).1 = (add_sw_breakpoint S a).1 ∧
    (add_sw_breakpoint (add_sw_breakpoint S a).1 a).2 = false ∧
    (remove_sw_breakpoint S a).2 = decide (a ∈ S) := by
  refine ⟨fun ha => ⟨?_, ?_, ?_⟩, ?_, ?_, rfl⟩
  · exact Finset.erase_insert ha
  · simp [add_sw_breakpoint, ha]
  · simp [remove_sw_breakpoint, add_sw_breakpoint]
  · simp [add_sw_breakpoint, Finset.insert_idem]
  · simp [add_sw_breakpoint]

/-- C9 witness: the laws applied to the empty set and address 0x400. -/
theorem C9_breakpoint_laws_witness :
    (remove_sw_breakpoint (add_sw_breakpoint ∅ 0x400).1 0x400).1 = (∅ : Finset Nat) ∧
    (add_sw_breakpoint (∅ : Finset Nat) 0x400).2 = true ∧
    (add_sw_breakpoint (add_sw_breakpoint (∅ : Finset Nat) 0x400).1 0x400).2 = false :=
  ⟨((C9_breakpoint_laws ∅ 0x400).1 (by decide)).1,
   ((C9_breakpoint_laws ∅ 0x400).1 (by decide)).2.1,
   (C9_breakpoint_laws ∅ 0x400).2.2.1⟩

/-- C10: the stopped flag is an invariant false — construction starts with
it clear, reset leaves the field untouched, and no executed instruction
writes it, so `is_stopped()` returns false in every reachable state and a
loop running until it becomes true never terminates by that condition. -/
theorem C10_stopped_invariant (c : Cpu) (h : Reachable c) :
    c.is_stopped_accessor = false :=
  reachable_is_stopped_false c h

/-- C10 witness: the invariant at the freshly constructed CPU. -/
theorem C10_stopped_invariant_witness : Cpu.new.is_stopped_accessor = false :=
  C10_stopped_invariant Cpu.new Reachable.new

end System68k
